import Mathlib

/-!
Shallow embedding of the decision-fusion and model-routing core of the
`decision-api` guardrail service (modules `app/guardrails/risk_assessment.py`,
`app/guardrails/content_moderation.py`, `app/guardrails/model_routing.py` and
the decision aggregation in `app/api/guardrails.py`), together with theorems
checking the natural-language specification against it.

Modelling conventions:
* Python `float` is modelled as `ℚ`; every float constant in the source is a
  short decimal literal, and the concrete inputs evaluated below stay far away
  from representation-sensitive boundaries.
* Python `dict` (insertion ordered) is modelled as an association list.
* A Python function that can raise is modelled with `Option`/`Except`.
* `try`/`except` around the simulated probe call is modelled by passing the
  outcome of the call as an explicit argument.
* Python regular expressions are modelled by an explicit backtracking matcher
  (`mrun`) over a regex syntax tree; each source pattern is transcribed node
  by node.  Alternatives are tried left to right and repetition is greedy,
  mirroring the CPython `re` backtracking order.
-/

namespace AIGov

/-- Python `int(x)` applied to a float/rational: truncation toward zero
(floor for nonnegative arguments, ceiling for negative ones). -/
def pyTrunc (q : ℚ) : ℤ :=
  if 0 ≤ q then ⌊q⌋ else ⌈q⌉

/-- Stable insert for a descending sort: `x` is placed before the first
element whose key is not larger (Python `list.sort(key=..., reverse=True)`
keeps the original order of elements with equal keys). -/
def insertDesc {α : Type} (key : α → ℚ) (x : α) : List α → List α
  | [] => [x]
  | y :: ys => if key y ≤ key x then x :: y :: ys else y :: insertDesc key x ys

/-- Stable descending sort by a rational key, mirroring
`list.sort(key=lambda x: x[0], reverse=True)`. -/
def sortDesc {α : Type} (key : α → ℚ) : List α → List α
  | [] => []
  | x :: xs => insertDesc key x (sortDesc key xs)

/-! ## Risk assessment data model (`risk_assessment.py`) -/

/-- Risk levels (`class RiskLevel`). -/
inductive RiskLevel
  | CRITICAL | HIGH | MEDIUM | LOW | MINIMAL
deriving DecidableEq, Repr

/-- Wire value of a risk level (`RiskLevel(str, Enum)`). -/
def RiskLevel.value : RiskLevel → String
  | .CRITICAL => "CRITICAL"
  | .HIGH => "HIGH"
  | .MEDIUM => "MEDIUM"
  | .LOW => "LOW"
  | .MINIMAL => "MINIMAL"

/-- Risk categories (`class RiskCategory`). -/
inductive RiskCategory
  | DATA_LEAKAGE | HARMFUL_OUTPUT | ADVERSARIAL_ATTACK | COMPLIANCE_VIOLATION
  | BIAS_DISCRIMINATION | MISINFORMATION | PROMPT_INJECTION | JAILBREAK_ATTEMPT
deriving DecidableEq, Repr

/-- One detector finding (`class RiskFactor`). -/
structure RiskFactor where
  category : RiskCategory
  severity : RiskLevel
  score : ℤ
  confidence : ℚ
  evidence : List String
  mitigation : Option String := none
deriving DecidableEq, Repr

/-- Aggregated assessment (`class RiskAssessmentResult`). -/
structure RiskAssessmentResult where
  overall_risk_score : ℤ
  risk_level : RiskLevel
  risk_factors : List RiskFactor
  recommendations : List String
  should_block : Bool
  should_review : Bool
deriving DecidableEq, Repr

/-- `AIRiskAssessor._generate_recommendations`.  The Python code collects the
set of categories present and appends fixed texts per category, then a text
per risk level. -/
def generate_recommendations (risk_factors : List RiskFactor)
    (risk_level : RiskLevel) : List String :=
  (if risk_factors.any fun rf => rf.category == .DATA_LEAKAGE then
    ["Enable DLP scanning and PII redaction",
     "Implement data loss prevention policies"] else [])
  ++ (if risk_factors.any fun rf =>
        rf.category == .JAILBREAK_ATTEMPT || rf.category == .PROMPT_INJECTION then
    ["Apply input sanitization and validation",
     "Enable advanced prompt protection"] else [])
  ++ (if risk_factors.any fun rf => rf.category == .HARMFUL_OUTPUT then
    ["Enable content moderation filters",
     "Implement human review for flagged content"] else [])
  ++ (if risk_factors.any fun rf => rf.category == .COMPLIANCE_VIOLATION then
    ["Review compliance requirements (GDPR, HIPAA, etc.)",
     "Ensure proper data classification and handling"] else [])
  ++ (match risk_level with
      | .CRITICAL => ["IMMEDIATE ACTION REQUIRED: Block request and alert security team"]
      | .HIGH => ["Require manual review before proceeding"]
      | .MEDIUM => ["Log for audit and consider additional monitoring"]
      | _ => [])

/-- `AIRiskAssessor._calculate_overall_risk` (risk_assessment.py lines
283-326).  `int(total_score / total_weight)` is Python truncation toward
zero, embedded as `pyTrunc`. -/
def calculate_overall_risk (risk_factors : List RiskFactor) : RiskAssessmentResult :=
  if risk_factors.isEmpty then
    { overall_risk_score := 0
      risk_level := .MINIMAL
      risk_factors := []
      recommendations := ["No significant risks detected"]
      should_block := false
      should_review := false }
  else
    let total_score : ℚ := (risk_factors.map fun rf => (rf.score : ℚ) * rf.confidence).sum
    let total_weight : ℚ := (risk_factors.map fun rf => rf.confidence).sum
    let overall_score : ℤ := if 0 < total_weight then pyTrunc (total_score / total_weight) else 0
    let risk_level : RiskLevel :=
      if overall_score ≥ 85 then .CRITICAL
      else if overall_score ≥ 70 then .HIGH
      else if overall_score ≥ 50 then .MEDIUM
      else if overall_score ≥ 30 then .LOW
      else .MINIMAL
    { overall_risk_score := overall_score
      risk_level := risk_level
      risk_factors := risk_factors
      recommendations := generate_recommendations risk_factors risk_level
      should_block := risk_level == .CRITICAL || risk_level == .HIGH
      should_review := risk_level == .HIGH || risk_level == .MEDIUM }

/-! ## Content moderation data model (`content_moderation.py`) -/

/-- Toxicity levels (`class ToxicityLevel`). -/
inductive ToxicityLevel
  | SEVERE | HIGH | MODERATE | LOW | CLEAN
deriving DecidableEq, Repr

/-- Wire value of a toxicity level. -/
def ToxicityLevel.value : ToxicityLevel → String
  | .SEVERE => "SEVERE"
  | .HIGH => "HIGH"
  | .MODERATE => "MODERATE"
  | .LOW => "LOW"
  | .CLEAN => "CLEAN"

/-- Toxicity categories (`class ToxicityCategory`). -/
inductive ToxicityCategory
  | PROFANITY | HATE_SPEECH | SEXUAL_CONTENT | VIOLENCE
  | HARASSMENT | THREAT | IDENTITY_ATTACK | INSULT
deriving DecidableEq, Repr

/-- An element of the list returned by `re.findall`: a plain string when the
pattern has at most one group, a tuple of the group texts when it has
several.  (`_redact_content` later applies `re.escape` to each element,
which raises `TypeError` on a tuple.) -/
inductive PyFindallItem
  | str (s : String)
  | tup (groups : List String)
deriving DecidableEq, Repr

/-- Moderation verdict (`class ModerationResult`). -/
structure ModerationResult where
  is_toxic : Bool
  toxicity_score : ℚ
  toxicity_level : ToxicityLevel
  categories : List ToxicityCategory
  flagged_content : List PyFindallItem
  should_block : Bool
  redacted_content : Option String := none
deriving DecidableEq, Repr

/-! ## Threat intelligence data model (`red_team.py`, fields used by the
decision aggregator) -/

/-- Threat levels (`class ThreatLevel`). -/
inductive ThreatLevel
  | CRITICAL | HIGH | MEDIUM | LOW | INFO
deriving DecidableEq, Repr

/-- Threat categories (`class ThreatCategory`). -/
inductive ThreatCategory
  | PROMPT_INJECTION | JAILBREAK | DATA_EXFILTRATION | MODEL_MANIPULATION
  | ADVERSARIAL_INPUT | SOCIAL_ENGINEERING | API_ABUSE | UNAUTHORIZED_ACCESS
  | POISONING_ATTACK
deriving DecidableEq, Repr

/-- One detected threat (`class ThreatIntelligence`); only the fields the
decision aggregator reads are carried (`threat_level`, `category`,
`attack_pattern`); the remaining metadata fields (ids, timestamps,
indicators, recommended actions) do not influence the verdict. -/
structure ThreatIntelligence where
  threat_level : ThreatLevel
  category : ThreatCategory
  attack_pattern : String
deriving DecidableEq, Repr

/-! ## Decision aggregator (`app/api/guardrails.py`, `analyze_prompt`) -/

/-- Decision returned to the caller (`class GuardrailsDecision`); the
`metadata` dictionary (a projection of the fields below) is omitted. -/
structure GuardrailsDecision where
  allowed : Bool
  decision : String
  risk_assessment : RiskAssessmentResult
  content_moderation : ModerationResult
  threats_detected : List ThreatIntelligence
  recommendation : String
deriving DecidableEq, Repr

/-- The decision fusion of `analyze_prompt` (guardrails.py lines 124-177),
as a function of the three sub-results it combines; the incident-logging
side effect (lines 136-146) does not alter the decision and is omitted. -/
def analyze_prompt_decision (risk_result : RiskAssessmentResult)
    (moderation_result : ModerationResult)
    (threats : List ThreatIntelligence) : GuardrailsDecision :=
  let should_block : Bool :=
    risk_result.should_block || moderation_result.should_block ||
      threats.any fun t => t.threat_level == .CRITICAL || t.threat_level == .HIGH
  let should_review : Bool :=
    risk_result.should_review ||
      (moderation_result.is_toxic && !moderation_result.should_block)
  let decision : String :=
    if should_block then "BLOCK" else if should_review then "REVIEW" else "ALLOW"
  let recommendation : String :=
    if should_block then
      "Request blocked due to security risks. "
        ++ (if risk_result.should_block then
              "Risk: " ++ risk_result.risk_level.value ++ ". " else "")
        ++ (if moderation_result.should_block then
              "Content: " ++ moderation_result.toxicity_level.value ++ ". " else "")
        ++ (if !threats.isEmpty then
              "Threats: "
                ++ String.intercalate ", " (threats.map fun t => t.attack_pattern)
                ++ "." else "")
    else if should_review then "Manual review recommended before processing."
    else "Prompt passes all security checks."
  { allowed := !should_block
    decision := decision
    risk_assessment := risk_result
    content_moderation := moderation_result
    threats_detected := threats
    recommendation := recommendation }

/-! ## Model routing data model (`model_routing.py`) -/

/-- Health/routing status of a model (`class ModelStatus`). -/
inductive ModelStatus
  | HEALTHY | DEGRADED | UNAVAILABLE | MAINTENANCE
deriving DecidableEq, Repr

/-- Model providers (`class ModelProvider`). -/
inductive ModelProvider
  | OPENAI | ANTHROPIC | GOOGLE | AZURE | AWS_BEDROCK | COHERE | HUGGINGFACE | LOCAL
deriving DecidableEq, Repr

/-- Wire value of a provider (`ModelProvider(str, Enum)`). -/
def ModelProvider.value : ModelProvider → String
  | .OPENAI => "openai"
  | .ANTHROPIC => "anthropic"
  | .GOOGLE => "google"
  | .AZURE => "azure"
  | .AWS_BEDROCK => "aws_bedrock"
  | .COHERE => "cohere"
  | .HUGGINGFACE => "huggingface"
  | .LOCAL => "local"

/-- Model capabilities (`class ModelCapability`). -/
inductive ModelCapability
  | TEXT_GENERATION | CHAT | CODE_GENERATION | EMBEDDINGS
  | IMAGE_GENERATION | FUNCTION_CALLING
deriving DecidableEq, Repr

/-- Registered model metadata (`class ModelConfig`). -/
structure ModelConfig where
  model_id : String
  provider : ModelProvider
  endpoint : String
  api_key_env : Option String := none
  capabilities : List ModelCapability
  max_tokens : ℤ := 4096
  cost_per_1k_tokens : ℚ := 0
  latency_threshold_ms : ℤ := 5000
  priority : ℤ := 100
  enabled : Bool := true
deriving DecidableEq, Repr

/-- Live health state of a model (`class HealthCheck`); `last_check` is the
`datetime` of the probe, modelled as an abstract tick count. -/
structure HealthCheck where
  model_id : String
  status : ModelStatus
  latency_ms : ℤ
  success_rate : ℚ
  last_check : ℕ
  consecutive_failures : ℕ := 0
deriving DecidableEq, Repr

/-- Routing outcome (`class RoutingDecision`). -/
structure RoutingDecision where
  selected_model : String
  provider : ModelProvider
  reason : String
  failover_models : List String
  estimated_latency_ms : ℤ
  estimated_cost : ℚ
deriving DecidableEq, Repr

/-- The mutable state of `class ModelRouter`: the two insertion-ordered
dictionaries `self.models` and `self.health_status` (the request history,
unused by routing, is omitted). -/
structure ModelRouter where
  models : List (String × ModelConfig)
  health_status : List (String × HealthCheck)
deriving DecidableEq, Repr

/-- `self.health_status[model_id]`.  `register_model` always inserts the two
dictionaries under the same key, so the subscript never misses; a missing
key is given an `UNAVAILABLE` placeholder, which can only shrink the set of
available models. -/
def health_of (r : ModelRouter) (model_id : String) : HealthCheck :=
  (r.health_status.lookup model_id).getD
    { model_id := model_id, status := .UNAVAILABLE, latency_ms := 0
      success_rate := 0, last_check := 0, consecutive_failures := 0 }

/-- `ModelRouter._calculate_model_score` (model_routing.py lines 284-317).
The latency term is added only when `health.latency_ms > 0` and the cost
term only when `config.cost_per_1k_tokens > 0`, exactly as in the source. -/
def calculate_model_score (config : ModelConfig) (health : HealthCheck)
    (require_low_latency : Bool) : ℚ :=
  let score : ℚ := 0
  let score := score + ((config.priority : ℚ) / 100) * 30
  let score := score +
    (if health.status == .HEALTHY then 40
     else if health.status == .DEGRADED then 20 else 0)
  let score := score + health.success_rate * 10
  let latency_weight : ℚ := if require_low_latency then 40 else 20
  let score :=
    if health.latency_ms > 0 then
      score + max 0 (1 - (health.latency_ms : ℚ) / (config.latency_threshold_ms : ℚ)) * latency_weight
    else score
  let score :=
    if config.cost_per_1k_tokens > 0 then
      score + max 0 (1 - config.cost_per_1k_tokens / (2/100)) * 10
    else score
  score

/-- `ModelRouter._generate_routing_reason` (model_routing.py lines 319-344). -/
def generate_routing_reason (config : ModelConfig) (health : HealthCheck)
    (require_low_latency : Bool) (user_preference : Option String) : String :=
  let reasons : List String :=
    (match user_preference with
     | some pref => if pref = "" then [] else ["User preference: " ++ pref]
     | none => [])
    ++ (if health.status == .HEALTHY then ["Healthy status"] else [])
    ++ (if require_low_latency && decide (health.latency_ms < config.latency_threshold_ms) then
          ["Low latency (" ++ toString health.latency_ms ++ "ms)"] else [])
    ++ (if config.priority ≥ 90 then ["High priority model"] else [])
    ++ (if config.cost_per_1k_tokens < 5/1000 then ["Cost-efficient"] else [])
  if reasons.isEmpty then "Best available match"
  else String.intercalate "; " reasons

/-- Errors raised by `route_request`: the explicit
`Exception(f"No available models for capability: ...")` and the
`IndexError` from `scored_models[0]` on an empty ranking. -/
inductive RouteError
  | noModels (capability : ModelCapability)
  | indexError
deriving DecidableEq, Repr

/-- The first filter of `route_request` (model_routing.py lines 214-220):
capability in the configured set, enabled, and health status `HEALTHY` or
`DEGRADED`. -/
def available_models (r : ModelRouter) (capability : ModelCapability) :
    List (String × ModelConfig) :=
  r.models.filter fun p : String × ModelConfig =>
    p.2.capabilities.contains capability && p.2.enabled &&
      ((health_of r p.1).status == .HEALTHY || (health_of r p.1).status == .DEGRADED)

/-- The cost filter of `route_request` (model_routing.py lines 225-231);
`if max_cost:` is Python truthiness, so both `None` and `0.0` skip the
filter. -/
def cost_filtered (available : List (String × ModelConfig)) (max_cost : Option ℚ) :
    List (String × ModelConfig) :=
  match max_cost with
  | some c =>
    if c = 0 then available
    else available.filter fun p : String × ModelConfig =>
      decide (p.2.cost_per_1k_tokens ≤ c)
  | none => available

/-- The preference narrowing of `route_request` (model_routing.py lines
233-241); an absent or empty preference, or one matching no candidate,
leaves the list unchanged. -/
def preference_narrowed (available : List (String × ModelConfig))
    (user_preference : Option String) : List (String × ModelConfig) :=
  match user_preference with
  | some pref =>
    if pref = "" then available
    else
      let preferred := available.filter fun p : String × ModelConfig =>
        decide (p.1 = pref ∨ p.2.provider.value = pref)
      if preferred.isEmpty then available else preferred
  | none => available

/-- `ModelRouter.route_request` (model_routing.py lines 196-282).  The
sequential rebindings of `available_models` in the source are the named
stages `available_models`, `cost_filtered`, `preference_narrowed`. -/
def route_request (r : ModelRouter) (capability : ModelCapability)
    (user_preference : Option String := none) (max_cost : Option ℚ := none)
    (require_low_latency : Bool := false) : Except RouteError RoutingDecision :=
  let available := available_models r capability
  if available.isEmpty then
    .error (.noModels capability)
  else
    let available := preference_narrowed (cost_filtered available max_cost) user_preference
    let scored := available.map fun p : String × ModelConfig =>
      (calculate_model_score p.2 (health_of r p.1) require_low_latency,
        p.1, p.2, health_of r p.1)
    let sorted := sortDesc (fun x => x.1) scored
    match sorted with
    | [] => .error .indexError
    | (_, selected_id, selected_config, selected_health) :: rest =>
      .ok { selected_model := selected_id
            provider := selected_config.provider
            reason := generate_routing_reason selected_config selected_health
              require_low_latency user_preference
            failover_models := (rest.take 3).map fun x => x.2.1
            estimated_latency_ms :=
              if selected_health.latency_ms > 0 then selected_health.latency_ms else 1000
            estimated_cost := selected_config.cost_per_1k_tokens }

/-- `ModelRouter.health_check_model` (model_routing.py lines 354-391) as the
state update applied to the model's previous `HealthCheck`.  The simulated
probe either succeeds with a measured latency (`outcome = some latency`) or
raises (`outcome = none`, the `except` branch); `now` stands for
`datetime.utcnow()`. -/
def health_check_model_update (prev : HealthCheck) (outcome : Option ℤ)
    (now : ℕ) : HealthCheck :=
  match outcome with
  | some latency_ms =>
    { model_id := prev.model_id
      status := .HEALTHY
      latency_ms := latency_ms
      success_rate := 99/100
      last_check := now
      consecutive_failures := 0 }
  | none =>
    let cf := prev.consecutive_failures + 1
    { prev with
      consecutive_failures := cf
      status := if cf ≥ 3 then .UNAVAILABLE else .DEGRADED
      last_check := now }

/-- `ModelRouter.update_model_status` (model_routing.py lines 393-397):
the manual, probe-independent status override. -/
def update_model_status (h : HealthCheck) (status : ModelStatus) (now : ℕ) :
    HealthCheck :=
  { h with status := status, last_check := now }

/-! ## A backtracking regex matcher mirroring CPython `re`

The detector patterns of `risk_assessment.py` and `content_moderation.py`
are transcribed node by node into the syntax tree `RE` below and run with
`mrun`, which lists the possible matches in CPython preference order:
alternatives left to right, repetition greedy (longest first). -/

/-- The apostrophe character, written by code point. -/
def apos : Char := Char.ofNat 39

/-- Python `\w` on ASCII input: letters, digits, underscore. -/
def pyWordChar (c : Char) : Bool := c.isAlphanum || c == '_'

/-- Python `\s` on ASCII input. -/
def pyWhitespace (c : Char) : Bool :=
  c == ' ' || c == '\t' || c == '\n' || c == '\r' || c == '\x0b' || c == '\x0c'

/-- Regex syntax tree: single-character classes, concatenation, prioritized
alternation, greedy Kleene star, word boundary, numbered capture group. -/
inductive RE
  | eps
  | tok (p : Char → Bool)
  | seq (a b : RE)
  | alt (a b : RE)
  | star (r : RE)
  | wordB
  | group (gid : Nat) (r : RE)

/-- Whether position `i` of `s` holds a word character. -/
def isWordAt (s : List Char) (i : Nat) : Bool :=
  match s.get? i with
  | some c => pyWordChar c
  | none => false

/-- `\b`: exactly one neighbour of position `i` is a word character. -/
def atWordBoundary (s : List Char) (i : Nat) : Bool :=
  (if i = 0 then false else isWordAt s (i - 1)) != isWordAt s i

/-- One backtracking result: the end position of the match and the captured
spans `(group id, start, stop)` in capture order. -/
abbrev MatchRes := Nat × List (Nat × Nat × Nat)

/-- All ways `re` can match starting at position `i` of `s`, as
`(end, captures)` pairs in CPython preference order.  `fuel` bounds the
recursion depth; exhausting it can only drop results, never invent them,
and every use below supplies `ampleFuel`. -/
def mrun (s : List Char) : Nat → RE → Nat → List MatchRes
  | 0, _, _ => []
  | fuel + 1, re, i =>
    match re with
    | .eps => [(i, [])]
    | .tok p =>
      match s.get? i with
      | some c => if p c then [(i + 1, [])] else []
      | none => []
    | .seq a b =>
      (mrun s fuel a i).flatMap fun ra =>
        (mrun s fuel b ra.1).map fun rb => (rb.1, ra.2 ++ rb.2)
    | .alt a b => mrun s fuel a i ++ mrun s fuel b i
    | .star r =>
      ((mrun s fuel r i).filter fun ra => i < ra.1).flatMap
        (fun ra => (mrun s fuel (.star r) ra.1).map fun rb => (rb.1, ra.2 ++ rb.2))
      ++ [(i, [])]
    | .wordB => if atWordBoundary s i then [(i, [])] else []
    | .group gid r =>
      (mrun s fuel r i).map fun ra => (ra.1, ra.2 ++ [(gid, i, ra.1)])

/-- Number of syntax nodes of a regex. -/
def reSize : RE → Nat
  | .eps => 1
  | .tok _ => 1
  | .wordB => 1
  | .seq a b => reSize a + reSize b + 1
  | .alt a b => reSize a + reSize b + 1
  | .star r => reSize r + 1
  | .group _ r => reSize r + 1

/-- Ample matching fuel: the transcribed patterns nest no star inside
another star, so every backtracking derivation is shallower than
`(size + 2) · (length + 2)`. -/
def ampleFuel (re : RE) (s : List Char) : Nat :=
  (reSize re + 2) * (s.length + 2)

/-- First (leftmost-at-`i`, highest-priority) match of `re` at position
`i`. -/
def matchAt (s : List Char) (re : RE) (i : Nat) : Option MatchRes :=
  (mrun s (ampleFuel re s) re i).head?

/-- `re.search` scan: the first position `≥ i` with a match, with that
match.  The fuel argument counts the positions still to try. -/
def pySearchAux (s : List Char) (re : RE) : Nat → Nat → Option (Nat × MatchRes)
  | 0, _ => none
  | fuel + 1, i =>
    match matchAt s re i with
    | some m => some (i, m)
    | none => if i ≥ s.length then none else pySearchAux s re fuel (i + 1)

/-- `re.search(pattern, content) is not None`. -/
def pySearch (content : String) (re : RE) : Bool :=
  (pySearchAux content.data re (content.data.length + 1) 0).isSome

/-- `re.finditer`: start position and match of each successive
non-overlapping leftmost match; after a match the scan resumes at its end
(or one further for an empty match). -/
def pyFindIterAux (s : List Char) (re : RE) : Nat → Nat → List (Nat × MatchRes)
  | 0, _ => []
  | fuel + 1, i =>
    match pySearchAux s re (s.length + 1 - i) i with
    | none => []
    | some (j, m) =>
      (j, m) :: pyFindIterAux s re fuel (if m.1 > j then m.1 else j + 1)

/-- All non-overlapping matches of `re` in `content`. -/
def pyFindIter (content : String) (re : RE) : List (Nat × MatchRes) :=
  pyFindIterAux content.data re (content.data.length + 1) 0

/-- The substring of `s` from `a` (inclusive) to `b` (exclusive). -/
def sliceStr (s : List Char) (a b : Nat) : String :=
  String.mk ((s.take b).drop a)

/-- Text of the last capture of group `gid` (CPython keeps the last
capture), empty when the group did not participate in the match. -/
def capText (s : List Char) (caps : List (Nat × Nat × Nat)) (gid : Nat) : String :=
  match (caps.filter fun c => c.1 == gid).getLast? with
  | some c => sliceStr s c.2.1 c.2.2
  | none => ""

/-- `re.findall`: with no group the whole match text, with one group its
capture, with several groups the tuple of the group texts. -/
def pyFindall (content : String) (re : RE) (ngroups : Nat) : List PyFindallItem :=
  let s := content.data
  (pyFindIter content re).map fun r =>
    if ngroups = 0 then .str (sliceStr s r.1 r.2.1)
    else if ngroups = 1 then .str (capText s r.2.2 1)
    else .tup ((List.range ngroups).map fun k => capText s r.2.2 (k + 1))

/-- Case-sensitive literal character. -/
def chR (c : Char) : RE := .tok fun d => d == c

/-- Case-insensitive literal character (for `(?i)` patterns). -/
def ciChR (c : Char) : RE := .tok fun d => d.toLower == c.toLower

/-- Case-sensitive literal string. -/
def strR (w : String) : RE := w.data.foldr (fun c r => .seq (chR c) r) .eps

/-- Case-insensitive literal string. -/
def ciStrR (w : String) : RE := w.data.foldr (fun c r => .seq (ciChR c) r) .eps

/-- `.`: any character but newline (no DOTALL in the source patterns). -/
def dotR : RE := .tok fun d => d != '\n'

/-- `\d`. -/
def digitR : RE := .tok Char.isDigit

/-- `\w`. -/
def wordR : RE := .tok pyWordChar

/-- `\s`. -/
def spaceR : RE := .tok pyWhitespace

/-- Greedy `r?`. -/
def optR (r : RE) : RE := .alt r .eps

/-- Greedy `r+`. -/
def plusR (r : RE) : RE := .seq r (.star r)

/-- `n` mandatory copies of `r`. -/
def repExact (r : RE) : Nat → RE
  | 0 => .eps
  | n + 1 => .seq r (repExact r n)

/-- `n` greedy optional copies of `r`. -/
def repOpt (r : RE) : Nat → RE
  | 0 => .eps
  | n + 1 => .seq (optR r) (repOpt r n)

/-- Greedy `r{lo, lo+extra}`: `lo` mandatory copies, then `extra` optional
ones. -/
def repRange (r : RE) (lo extra : Nat) : RE :=
  .seq (repExact r lo) (repOpt r extra)

/-- Greedy `r{lo,}`. -/
def repAtLeast (r : RE) (lo : Nat) : RE := .seq (repExact r lo) (.star r)

/-- Alternation of a list, first alternative preferred. -/
def altList : List RE → RE
  | [] => .tok fun _ => false
  | [r] => r
  | r :: rs => .alt r (altList rs)

/-- Concatenation of a list. -/
def seqList : List RE → RE
  | [] => .eps
  | [r] => r
  | r :: rs => .seq r (seqList rs)

/-! ## Risk detector patterns (`AIRiskAssessor`) -/

/-- `[\s-]`. -/
def wsDash : RE := .tok fun c => pyWhitespace c || c == '-'

/-- `[\s.-]`. -/
def wsDotDash : RE := .tok fun c => pyWhitespace c || c == '.' || c == '-'

/-- `\b\d{3}-\d{2}-\d{4}\b` (`ssn`). -/
def ssnRE : RE :=
  seqList [.wordB, repRange digitR 3 0, chR '-', repRange digitR 2 0,
    chR '-', repRange digitR 4 0, .wordB]

/-- `\b\d{4}[\s-]?\d{4}[\s-]?\d{4}[\s-]?\d{4}\b` (`credit_card`). -/
def creditCardRE : RE :=
  seqList [.wordB, repRange digitR 4 0, optR wsDash, repRange digitR 4 0,
    optR wsDash, repRange digitR 4 0, optR wsDash, repRange digitR 4 0, .wordB]

/-- `\b[A-Za-z0-9._%+-]+@[A-Za-z0-9.-]+\.[A-Z|a-z]{2,}\b` (`email`); the
`|` inside the final class is a literal character of the source pattern. -/
def emailRE : RE :=
  seqList [.wordB,
    plusR (.tok fun c =>
      c.isAlpha || c.isDigit || c == '.' || c == '_' || c == '%' || c == '+' || c == '-'),
    chR '@',
    plusR (.tok fun c => c.isAlpha || c.isDigit || c == '.' || c == '-'),
    chR '.',
    repAtLeast (.tok fun c =>
      decide ('A' ≤ c ∧ c ≤ 'Z') || c == '|' || decide ('a' ≤ c ∧ c ≤ 'z')) 2,
    .wordB]

/-- `\b(\+\d{1,2}\s?)?\(?\d{3}\)?[\s.-]?\d{3}[\s.-]?\d{4}\b` (`phone`). -/
def phoneRE : RE :=
  seqList [.wordB,
    optR (.group 1 (seqList [chR '+', repRange digitR 1 1, optR spaceR])),
    optR (chR '('), repRange digitR 3 0, optR (chR ')'), optR wsDotDash,
    repRange digitR 3 0, optR wsDotDash, repRange digitR 4 0, .wordB]

/-- `\b(?:\d{1,3}\.){3}\d{1,3}\b` (`ip_address`). -/
def ipRE : RE :=
  seqList [.wordB,
    repRange (seqList [repRange digitR 1 2, chR '.']) 3 0,
    repRange digitR 1 2, .wordB]

/-- `(?i)(api[_-]?key|apikey|access[_-]?token|secret[_-]?key)[\s:=]+` then
`['\"]?([a-zA-Z0-9_\-]{20,})['\"]?` (`api_key`). -/
def apiKeyRE : RE :=
  seqList [
    .group 1 (altList [
      seqList [ciStrR "api", optR (.tok fun c => c == '_' || c == '-'), ciStrR "key"],
      ciStrR "apikey",
      seqList [ciStrR "access", optR (.tok fun c => c == '_' || c == '-'), ciStrR "token"],
      seqList [ciStrR "secret", optR (.tok fun c => c == '_' || c == '-'), ciStrR "key"]]),
    plusR (.tok fun c => pyWhitespace c || c == ':' || c == '='),
    optR (.tok fun c => c == apos || c == '"'),
    .group 2 (repAtLeast (.tok fun c => c.isAlphanum || c == '_' || c == '-') 20),
    optR (.tok fun c => c == apos || c == '"')]

/-- `PII_PATTERNS` with their dictionary keys, in insertion order. -/
def PII_PATTERNS : List (String × RE) :=
  [("ssn", ssnRE), ("credit_card", creditCardRE), ("email", emailRE),
   ("phone", phoneRE), ("ip_address", ipRE), ("api_key", apiKeyRE)]

/-- `JAILBREAK_PATTERNS`, each with its source text (whose first 50
characters feed the evidence string). -/
def JAILBREAK_PATTERNS : List (String × RE) :=
  [("(?i)ignore (previous|above|all|your) (instructions|rules|guidelines|directives)",
    seqList [ciStrR "ignore ",
      .group 1 (altList [ciStrR "previous", ciStrR "above", ciStrR "all", ciStrR "your"]),
      ciStrR " ",
      .group 2 (altList [ciStrR "instructions", ciStrR "rules",
        ciStrR "guidelines", ciStrR "directives"])]),
   ("(?i)you (are|must) now (in|a) (DAN|developer|jailbreak|unrestricted) mode",
    seqList [ciStrR "you ",
      .group 1 (altList [ciStrR "are", ciStrR "must"]),
      ciStrR " now ",
      .group 2 (altList [ciStrR "in", ciStrR "a"]),
      ciStrR " ",
      .group 3 (altList [ciStrR "DAN", ciStrR "developer", ciStrR "jailbreak",
        ciStrR "unrestricted"]),
      ciStrR " mode"]),
   ("(?i)(pretend|act|behave) (as if|like) you (have no|don" ++
      String.singleton apos ++ "t have) (restrictions|limitations|rules)",
    seqList [
      .group 1 (altList [ciStrR "pretend", ciStrR "act", ciStrR "behave"]),
      ciStrR " ",
      .group 2 (altList [ciStrR "as if", ciStrR "like"]),
      ciStrR " you ",
      .group 3 (altList [ciStrR "have no",
        ciStrR ("don" ++ String.singleton apos ++ "t have")]),
      ciStrR " ",
      .group 4 (altList [ciStrR "restrictions", ciStrR "limitations", ciStrR "rules"])]),
   ("(?i)disregard (your|all) (programming|training|guidelines|safety)",
    seqList [ciStrR "disregard ",
      .group 1 (altList [ciStrR "your", ciStrR "all"]),
      ciStrR " ",
      .group 2 (altList [ciStrR "programming", ciStrR "training",
        ciStrR "guidelines", ciStrR "safety"])]),
   ("(?i)from now on.*respond (only|directly) (to|with)",
    seqList [ciStrR "from now on", .star dotR, ciStrR "respond ",
      .group 1 (altList [ciStrR "only", ciStrR "directly"]),
      ciStrR " ",
      .group 2 (altList [ciStrR "to", ciStrR "with"])]),
   ("(?i)you will now (forget|ignore) (your|all) (constraints|limitations)",
    seqList [ciStrR "you will now ",
      .group 1 (altList [ciStrR "forget", ciStrR "ignore"]),
      ciStrR " ",
      .group 2 (altList [ciStrR "your", ciStrR "all"]),
      ciStrR " ",
      .group 3 (altList [ciStrR "constraints", ciStrR "limitations"])])]

/-- `PROMPT_INJECTION_PATTERNS`. -/
def PROMPT_INJECTION_PATTERNS : List RE :=
  [seqList [.group 1 (altList [ciStrR "system", ciStrR "assistant", ciStrR "user"]),
     chR ':', .star spaceR, chR '\n'],
   seqList [chR '#', chR '#', optR (chR '#'), .star spaceR,
     .group 1 (altList [ciStrR "instruction", ciStrR "system", ciStrR "prompt"]),
     optR (ciChR 's'), .star spaceR, chR ':'],
   seqList [chR '<', optR (chR '|'),
     .group 1 (altList [ciStrR "system", ciStrR "im_start", ciStrR "endoftext",
       ciStrR "user"]),
     optR (chR '|'), chR '>'],
   seqList [ciStrR "ignore the ",
     .group 1 (altList [ciStrR "above", ciStrR "previous"]),
     ciStrR " and ",
     .group 2 (altList [ciStrR "instead", ciStrR "now"])]]

/-- `HARMFUL_CONTENT_PATTERNS`. -/
def HARMFUL_CONTENT_PATTERNS : List RE :=
  [seqList [.group 1 (altList [ciStrR "how to", ciStrR "ways to", ciStrR "methods to"]),
     repRange dotR 0 50,
     .group 2 (altList [ciStrR "harm", ciStrR "hurt", ciStrR "kill",
       ciStrR "assassinate", ciStrR "murder"])],
   seqList [.group 1 (altList [ciStrR "build", ciStrR "make", ciStrR "create",
       ciStrR "manufacture"]),
     repRange dotR 0 30,
     .group 2 (altList [ciStrR "bomb", ciStrR "explosive", ciStrR "weapon"])],
   seqList [.group 1 (altList [ciStrR "hack", ciStrR "exploit", ciStrR "breach",
       ciStrR "compromise"]),
     repRange dotR 0 30,
     .group 2 (altList [ciStrR "system", ciStrR "network", ciStrR "database",
       ciStrR "account"])],
   seqList [.group 1 (altList [ciStrR "child", ciStrR "minor", ciStrR "underage"]),
     repRange dotR 0 30,
     .group 2 (altList [ciStrR "sexual", ciStrR "explicit", ciStrR "abuse"])],
   seqList [.group 1 (altList [ciStrR "suicide", ciStrR "self-harm"]),
     repRange dotR 0 30,
     .group 2 (altList [ciStrR "method", ciStrR "way", ciStrR "how to"])]]

/-- `CONFIDENTIAL_PATTERNS` (all `(?i)`). -/
def CONFIDENTIAL_PATTERNS : List RE :=
  [ciStrR "@proprietary",
   ciStrR "confidential",
   seqList [ciStrR "internal", plusR spaceR, ciStrR "only"],
   seqList [ciStrR "trade", plusR spaceR, ciStrR "secret"],
   seqList [ciStrR "do", plusR spaceR, ciStrR "not", plusR spaceR, ciStrR "share"],
   seqList [ciStrR "restricted", plusR spaceR, ciStrR "access"]]

/-! ## Risk detectors (`AIRiskAssessor._check_*`) -/

/-- `_check_pii` (risk_assessment.py lines 165-188): one DATA_LEAKAGE factor
per firing pattern, CRITICAL (score 90) for ssn/credit_card/api_key, HIGH
(score 70) otherwise, confidence 0.95. -/
def check_pii (content : String) : List RiskFactor :=
  PII_PATTERNS.flatMap fun pr =>
    let found := pyFindIter content pr.2
    if found.isEmpty then []
    else
      let severity :=
        if pr.1 == "ssn" || pr.1 == "credit_card" || pr.1 == "api_key"
        then RiskLevel.CRITICAL else RiskLevel.HIGH
      let score : ℤ := if severity == RiskLevel.CRITICAL then 90 else 70
      [{ category := .DATA_LEAKAGE, severity := severity, score := score
         confidence := 95/100
         evidence := ["Detected " ++ pr.1 ++ ": " ++ toString found.length
           ++ " occurrence(s)"]
         mitigation := some ("Remove or redact " ++ pr.1 ++ " before processing") }]

/-- `_check_jailbreak_attempts` (lines 190-206): the loop breaks after the
first matching pattern, so at most one factor fires. -/
def check_jailbreak_attempts (content : String) : List RiskFactor :=
  match JAILBREAK_PATTERNS.find? fun pr => pySearch content pr.2 with
  | some pr =>
    [{ category := .JAILBREAK_ATTEMPT, severity := .HIGH, score := 85
       confidence := 90/100
       evidence := ["Jailbreak pattern detected: " ++ pr.1.take 50 ++ "..."]
       mitigation := some "Block request and log for security review" }]
  | none => []

/-- `_check_prompt_injection` (lines 208-224); the factor does not depend on
which pattern fired, so the first-match break is a plain existence test. -/
def check_prompt_injection (content : String) : List RiskFactor :=
  if PROMPT_INJECTION_PATTERNS.any fun re => pySearch content re then
    [{ category := .PROMPT_INJECTION, severity := .HIGH, score := 80
       confidence := 85/100
       evidence := ["Prompt injection pattern detected"]
       mitigation := some "Sanitize input and apply strict prompt template" }]
  else []

/-- `_check_harmful_content` (lines 226-242). -/
def check_harmful_content (content : String) : List RiskFactor :=
  if HARMFUL_CONTENT_PATTERNS.any fun re => pySearch content re then
    [{ category := .HARMFUL_OUTPUT, severity := .CRITICAL, score := 95
       confidence := 88/100
       evidence := ["Potentially harmful content detected"]
       mitigation := some "Block immediately and alert security team" }]
  else []

/-- `_check_confidential_content` (lines 262-281): one factor carrying the
number of matching marker patterns. -/
def check_confidential_content (content : String) : List RiskFactor :=
  let detected := CONFIDENTIAL_PATTERNS.filter fun re => pySearch content re
  if detected.isEmpty then []
  else
    [{ category := .COMPLIANCE_VIOLATION, severity := .CRITICAL, score := 90
       confidence := 98/100
       evidence := ["Confidential markers detected: " ++ toString detected.length]
       mitigation := some "Block and require manual review" }]

/-- `AIRiskAssessor.assess_prompt` (lines 112-139); the `context` argument
is unused by the source. -/
def assess_prompt (prompt : String) : RiskAssessmentResult :=
  calculate_overall_risk
    (check_pii prompt ++ check_jailbreak_attempts prompt ++
     check_prompt_injection prompt ++ check_harmful_content prompt ++
     check_confidential_content prompt)

/-! ## Content moderation patterns (`ContentModerator`) -/

/-- Case-insensitive character class (for classes under `(?i)`). -/
def ciCls (cs : List Char) : RE := .tok fun d => cs.contains d.toLower

/-- `PROFANITY_WORDS` (a Python set literal, carried in source order). -/
def PROFANITY_WORDS : List String :=
  ["fuck", "shit", "ass", "bitch", "damn", "bastard", "crap",
   "piss", "dick", "pussy", "cock", "whore", "slut", "fag"]

/-- `HATE_SPEECH_PATTERNS`, each with its number of capture groups. -/
def HATE_SPEECH_PATTERNS : List (Nat × RE) :=
  [(1, seqList [.wordB,
      .group 1 (altList [
        seqList [ciChR 'n', ciCls ['i', '1'], ciChR 'g', ciChR 'g',
          ciCls ['a', 'e'], ciChR 'r'],
        seqList [ciChR 'n', ciCls ['i', '1'], ciChR 'g', ciChR 'g',
          ciCls ['a', 'e']],
        seqList [ciChR 'n', ciCls ['1', 'i'], ciChR 'g', ciChR 'g',
          ciCls ['0', 'o']],
        seqList [ciChR 'k', ciCls ['i', '1'], ciChR 'k', ciChR 'e'],
        seqList [ciChR 'c', ciChR 'h', ciCls ['i', '1'], ciChR 'n', ciChR 'k'],
        seqList [ciChR 's', ciChR 'p', ciCls ['i', '1'], ciChR 'c'],
        ciStrR "beaner", ciStrR "wetback"]),
      .wordB]),
   (2, seqList [
      .group 1 (altList [ciStrR "death to", ciStrR "kill all",
        ciStrR "exterminate", ciStrR "genocide"]),
      repRange dotR 0 20,
      .group 2 (altList [ciStrR "jews", ciStrR "muslims", ciStrR "christians",
        ciStrR "blacks", ciStrR "whites", ciStrR "gays"])]),
   (1, .group 1 (altList [ciStrR "sub-human", ciStrR "inferior race",
      ciStrR "master race"]))]

/-- `SEXUAL_CONTENT_PATTERNS`. -/
def SEXUAL_CONTENT_PATTERNS : List (Nat × RE) :=
  [(1, seqList [.wordB,
      .group 1 (altList [ciStrR "porn", ciStrR "pornography", ciStrR "xxx",
        ciStrR "sex", ciStrR "nude", ciStrR "naked", ciStrR "erotic"]),
      .wordB]),
   (2, seqList [
      .group 1 (altList [ciStrR "sexual", ciStrR "sexually"]),
      repRange dotR 0 20,
      .group 2 (altList [ciStrR "explicit", ciStrR "graphic", ciStrR "aroused",
        ciStrR "stimulated"])]),
   (2, seqList [
      .group 1 (altList [ciStrR "breast", ciStrR "penis", ciStrR "vagina",
        ciStrR "genitals", ciStrR "anal", ciStrR "oral"]),
      repRange dotR 0 30,
      .group 2 (altList [ciStrR "explicit", ciStrR "graphic", ciStrR "detailed"])])]

/-- `VIOLENCE_PATTERNS`. -/
def VIOLENCE_PATTERNS : List (Nat × RE) :=
  [(2, seqList [
      .group 1 (altList [ciStrR "kill", ciStrR "murder", ciStrR "assassinate",
        ciStrR "execute", ciStrR "slaughter", ciStrR "massacre"]),
      repRange dotR 0 30,
      .group 2 (altList [ciStrR "him", ciStrR "her", ciStrR "them", ciStrR "people"])]),
   (1, .group 1 (altList [ciStrR "torture", ciStrR "mutilate", ciStrR "dismember",
      ciStrR "maim", ciStrR "disfigure"])),
   (2, seqList [
      .group 1 (altList [ciStrR "blood", ciStrR "gore", ciStrR "brutal",
        ciStrR "savage", ciStrR "violent"]),
      repRange dotR 0 20,
      .group 2 (altList [ciStrR "attack", ciStrR "assault", ciStrR "beating"])])]

/-- `HARASSMENT_PATTERNS`; the first has three groups, the second nested in
the first. -/
def HARASSMENT_PATTERNS : List (Nat × RE) :=
  [(3, seqList [
      .group 1 (seqList [ciStrR "you ",
        .group 2 (altList [ciStrR "are", ciStrR "should"])]),
      repRange dotR 0 30,
      .group 3 (altList [ciStrR "die", ciStrR "kill yourself",
        ciStrR "end your life"])]),
   (2, seqList [
      .group 1 (altList [ciStrR "stupid", ciStrR "idiot", ciStrR "moron",
        ciStrR "retard", ciStrR "dumb"]),
      repRange dotR 0 20,
      .group 2 (altList [ciStrR "person", ciStrR "people", ciStrR "user"])]),
   (2, seqList [
      .group 1 (altList [ciStrR "fat", ciStrR "ugly", ciStrR "disgusting",
        ciStrR "worthless", ciStrR "pathetic"]),
      repRange dotR 0 20,
      .group 2 (altList [ciStrR "person", ciStrR "piece of"])])]

/-- `THREAT_PATTERNS`. -/
def THREAT_PATTERNS : List (Nat × RE) :=
  [(2, seqList [
      .group 1 (altList [ciStrR "i will",
        ciStrR ("i" ++ String.singleton apos ++ "ll"),
        ciStrR "gonna", ciStrR "going to"]),
      repRange dotR 0 30,
      .group 2 (altList [ciStrR "kill", ciStrR "hurt", ciStrR "harm",
        ciStrR "destroy", ciStrR "attack", ciStrR "bomb", ciStrR "shoot"])]),
   (1, .group 1 (altList [ciStrR "watch your back",
      ciStrR ("you" ++ String.singleton apos ++ "re dead"),
      ciStrR "you better watch out"])),
   (2, seqList [
      .group 1 (altList [ciStrR "threat", ciStrR "threaten", ciStrR "threatening"]),
      repRange dotR 0 20,
      .group 2 (altList [ciStrR "you", ciStrR "your", ciStrR "violence"])])]

/-- `IDENTITY_ATTACK_PATTERNS`. -/
def IDENTITY_ATTACK_PATTERNS : List (Nat × RE) :=
  [(2, seqList [ciStrR "all ",
      .group 1 (altList [ciStrR "women", ciStrR "men", ciStrR "blacks",
        ciStrR "whites", ciStrR "asians", ciStrR "hispanics", ciStrR "jews",
        ciStrR "muslims", ciStrR "christians", ciStrR "gays", ciStrR "trans"]),
      repRange dotR 0 30,
      .group 2 (altList [ciStrR "are", ciStrR "should"])]),
   (2, seqList [
      .group 1 (altList [ciStrR "typical", ciStrR "stereotypical"]),
      repRange dotR 0 20,
      .group 2 (altList [ciStrR "woman", ciStrR "man", ciStrR "black",
        ciStrR "white", ciStrR "asian", ciStrR "jew", ciStrR "muslim",
        ciStrR "gay"])])]

/-! ## Content moderation checks and aggregation -/

/-- `\b\w+\b` used by `_check_profanity` to split into words. -/
def wordTokenRE : RE := seqList [.wordB, plusR wordR, .wordB]

/-- Python `str.count`: non-overlapping occurrences of `sub`, scanning left
to right (structured with explicit fuel so that it reduces
definitionally; `_check_profanity` never passes an empty `sub`). -/
def pyCountGo (sub : List Char) : Nat → List Char → Nat
  | 0, _ => 0
  | _ + 1, [] => 0
  | fuel + 1, c :: rest =>
    if sub.isPrefixOf (c :: rest) && !sub.isEmpty then
      1 + pyCountGo sub fuel (List.drop (sub.length - 1) rest)
    else pyCountGo sub fuel rest

/-- Python `s.count(sub)`. -/
def pyCount (sub s : List Char) : Nat := pyCountGo sub s.length s

/-- Python `str.lower()` on ASCII input, character by character. -/
def pyLower (s : String) : String := String.mk (s.data.map Char.toLower)

/-- `_check_profanity` (content_moderation.py lines 194-207).  Python's
`set(...)` and set intersection are modelled as order-preserving dedup and
filter: the score uses only the (order-independent) occurrence count, and
CPython's set iteration order for the flag list is unspecified anyway. -/
def check_profanity (content : String) : ℚ × List String :=
  let content_lower := pyLower content
  let words := ((pyFindall content_lower wordTokenRE 0).map fun it =>
    match it with
    | .str w => w
    | .tup _ => "").eraseDups
  let profane_words := words.filter fun w => PROFANITY_WORDS.contains w
  if profane_words.isEmpty then (0, [])
  else
    let count := (profane_words.map fun w => pyCount w.data content_lower.data).sum
    (min 1 (3/10 + (count : ℚ) * (1/10)), profane_words)

/-- The shared shape of `_check_sexual_content`, `_check_violence`,
`_check_harassment`, `_check_threats` and `_check_identity_attacks`:
accumulate the flags of every matching pattern and raise the score to the
category severity on any match. -/
def checkPatterns (content : String) (patterns : List (Nat × RE)) (sev : ℚ) :
    ℚ × List PyFindallItem :=
  patterns.foldl
    (fun acc pr =>
      let found := pyFindall content pr.2 pr.1
      if found.isEmpty then acc else (max acc.1 sev, acc.2 ++ found))
    (0, [])

/-- `_check_hate_speech` (lines 209-221): flags from every pattern; any hit
gives the maximal score 1.0. -/
def check_hate_speech (content : String) : ℚ × List PyFindallItem :=
  let flags := HATE_SPEECH_PATTERNS.flatMap fun pr => pyFindall content pr.2 pr.1
  if flags.isEmpty then (0, []) else (1, flags)

/-- `_check_sexual_content` (lines 223-234): severity 0.6. -/
def check_sexual_content (content : String) : ℚ × List PyFindallItem :=
  checkPatterns content SEXUAL_CONTENT_PATTERNS (6/10)

/-- `_check_violence` (lines 236-247): severity 0.8. -/
def check_violence (content : String) : ℚ × List PyFindallItem :=
  checkPatterns content VIOLENCE_PATTERNS (8/10)

/-- `_check_harassment` (lines 249-260): severity 0.75. -/
def check_harassment (content : String) : ℚ × List PyFindallItem :=
  checkPatterns content HARASSMENT_PATTERNS (75/100)

/-- `_check_threats` (lines 262-273): severity 0.95. -/
def check_threats (content : String) : ℚ × List PyFindallItem :=
  checkPatterns content THREAT_PATTERNS (95/100)

/-- `_check_identity_attacks` (lines 275-286): severity 0.8. -/
def check_identity_attacks (content : String) : ℚ × List PyFindallItem :=
  checkPatterns content IDENTITY_ATTACK_PATTERNS (8/10)

/-- Case-insensitive prefix test used by the redaction substitution. -/
def ciHeadMatches (item s : List Char) : Bool :=
  ((s.take item.length).map Char.toLower) == (item.map Char.toLower)

/-- One pass of `re.sub(re.escape(item), '*' * len(item), text,
flags=IGNORECASE)`: replace every non-overlapping case-insensitive
occurrence of the literal `item`, scanning left to right, by a same-length
asterisk run (fuel-structured for definitional reduction; flagged items are
never empty). -/
def replaceCIGo (item : List Char) : Nat → List Char → List Char
  | 0, s => s
  | _ + 1, [] => []
  | fuel + 1, c :: rest =>
    if ciHeadMatches item (c :: rest) && !item.isEmpty then
      List.replicate item.length '*' ++
        replaceCIGo item fuel (List.drop (item.length - 1) rest)
    else c :: replaceCIGo item fuel rest

/-- All case-insensitive replacements of `item` in `s`. -/
def replaceCIAll (item s : List Char) : List Char := replaceCIGo item s.length s

/-- `_redact_content` (content_moderation.py lines 288-301): sequential
`re.sub` over the flagged items in order; a tuple item (from a multi-group
pattern) raises `TypeError` inside `re.escape`, modelled as `none`. -/
def redact_content (content : String) (flagged_items : List PyFindallItem) :
    Option String :=
  flagged_items.foldlM
    (fun redacted item =>
      match item with
      | .str w => some (String.mk (replaceCIAll w.data redacted.data))
      | .tup _ => none)
    content

/-- The seven sequential category checks of `moderate_content` (lines
105-156): the `(category, score, flags)` triples of the categories whose
score is positive, in check order.  This carries the `toxicity_scores`
dict, the `categories` list and `flagged_items` at once: the dict is keyed
by category in insertion order and the three are extended together. -/
def moderation_entries (content : String) :
    List (ToxicityCategory × ℚ × List PyFindallItem) :=
  (if (check_profanity content).1 > 0 then
    [(.PROFANITY, (check_profanity content).1,
      (check_profanity content).2.map PyFindallItem.str)] else [])
  ++ (if (check_hate_speech content).1 > 0 then
    [(.HATE_SPEECH, (check_hate_speech content).1, (check_hate_speech content).2)]
    else [])
  ++ (if (check_sexual_content content).1 > 0 then
    [(.SEXUAL_CONTENT, (check_sexual_content content).1,
      (check_sexual_content content).2)] else [])
  ++ (if (check_violence content).1 > 0 then
    [(.VIOLENCE, (check_violence content).1, (check_violence content).2)] else [])
  ++ (if (check_harassment content).1 > 0 then
    [(.HARASSMENT, (check_harassment content).1, (check_harassment content).2)]
    else [])
  ++ (if (check_threats content).1 > 0 then
    [(.THREAT, (check_threats content).1, (check_threats content).2)] else [])
  ++ (if (check_identity_attacks content).1 > 0 then
    [(.IDENTITY_ATTACK, (check_identity_attacks content).1,
      (check_identity_attacks content).2)] else [])

/-- Python `max` over the non-empty list of `toxicity_scores.values()` held
by `moderate_content`; 0.0 when no category fired. -/
def overall_toxicity (scores : List ℚ) : ℚ :=
  match scores with
  | [] => 0
  | v :: vs => vs.foldl max v

/-- The 0.9/0.7/0.5/0.3 level thresholds of `moderate_content`. -/
def toxicity_level_of (overall_score : ℚ) : ToxicityLevel :=
  if overall_score ≥ 9/10 then .SEVERE
  else if overall_score ≥ 7/10 then .HIGH
  else if overall_score ≥ 5/10 then .MODERATE
  else if overall_score ≥ 3/10 then .LOW
  else .CLEAN

/-- The `overall_score` local of `moderate_content` (lines 158-162). -/
def moderation_overall (content : String) : ℚ :=
  overall_toxicity ((moderation_entries content).map fun e => e.2.1)

/-- The `toxicity_level` local of `moderate_content` (lines 164-174). -/
def moderation_level (content : String) : ToxicityLevel :=
  toxicity_level_of (moderation_overall content)

/-- The `is_toxic` local of `moderate_content` (lines 176-178): the score
reaches 0.5 in strict mode, the constructor threshold otherwise. -/
def moderation_is_toxic (toxicity_threshold : ℚ) (content : String)
    (strict_mode : Bool) : Bool :=
  decide (moderation_overall content ≥
    (if strict_mode then 1/2 else toxicity_threshold))

/-- The `should_block` local of `moderate_content` (line 179). -/
def moderation_should_block (toxicity_threshold : ℚ) (content : String)
    (strict_mode : Bool) : Bool :=
  moderation_is_toxic toxicity_threshold content strict_mode &&
    (moderation_level content == .SEVERE || moderation_level content == .HIGH)

/-- The `flagged_items` accumulator of `moderate_content`. -/
def moderation_flags (content : String) : List PyFindallItem :=
  (moderation_entries content).flatMap fun e => e.2.2

/-- Line 182 of `moderate_content`:
`self._redact_content(...) if should_block else None`, with the possible
`TypeError` of redaction surfaced as the outer `none`. -/
def moderation_redacted (toxicity_threshold : ℚ) (content : String)
    (strict_mode : Bool) : Option (Option String) :=
  if moderation_should_block toxicity_threshold content strict_mode then
    match redact_content content (moderation_flags content) with
    | some r => some (some r)
    | none => none
  else some none

/-- `ContentModerator.moderate_content` (lines 97-192).
`toxicity_threshold` is the constructor argument (0.7 by default); the
sequential locals of the source are the named `moderation_*` definitions
above; the result is `none` when the call raises (a `TypeError` in
redaction on a tuple flag). -/
def moderate_content (toxicity_threshold : ℚ) (content : String)
    (strict_mode : Bool) : Option ModerationResult :=
  (moderation_redacted toxicity_threshold content strict_mode).map fun rc =>
    { is_toxic := moderation_is_toxic toxicity_threshold content strict_mode
      toxicity_score := moderation_overall content
      toxicity_level := moderation_level content
      categories := (moderation_entries content).map fun e => e.1
      flagged_content := moderation_flags content
      should_block := moderation_should_block toxicity_threshold content strict_mode
      redacted_content := rc }

/-- Whether the case-insensitive occurrence of `w` at position `st` of `s`
exists (used by the resolved-spans redaction the spec describes). -/
def ciOccursAt (w s : List Char) (st : Nat) : Bool :=
  !w.isEmpty && (((s.drop st).take w.length).map Char.toLower ==
    w.map Char.toLower)

/-- Modelled from the spec (§4.3 and §9, the behaviour claim C7 asserts of
`_redact_content`, which the source does not implement): collect every
case-insensitive occurrence span of every flagged substring, resolve
overlapping spans into the union of covered positions, and mask every
covered position with an asterisk. -/
def redactResolvedSpans (content : String) (flags : List String) : String :=
  let s := content.data
  String.mk ((List.range s.length).map fun i =>
    if flags.any fun w => (List.range (i + 1)).any fun st =>
        ciOccursAt w.data s st && decide (i < st + w.data.length)
    then '*' else s.getD i ' ')

/-- Router state used to witness claim C2: one eligible CHAT model and one
whose health is UNAVAILABLE. -/
def witnessRouterC2 : ModelRouter :=
  { models :=
      [("m-ok", { model_id := "m-ok", provider := .OPENAI, endpoint := "e"
                  capabilities := [.CHAT], cost_per_1k_tokens := 1/100
                  latency_threshold_ms := 5000, priority := 90, enabled := true }),
       ("m-down", { model_id := "m-down", provider := .ANTHROPIC, endpoint := "e"
                    capabilities := [.CHAT], cost_per_1k_tokens := 1/100
                    latency_threshold_ms := 5000, priority := 95, enabled := true })]
    health_status :=
      [("m-ok", { model_id := "m-ok", status := .HEALTHY, latency_ms := 100
                  success_rate := 1, last_check := 0, consecutive_failures := 0 }),
       ("m-down", { model_id := "m-down", status := .UNAVAILABLE, latency_ms := 100
                    success_rate := 1, last_check := 0, consecutive_failures := 3 })] }

/-- A healthy CHAT model whose cost (0.01 per 1k tokens) will exceed the
requested budget in the claim C10 witness. -/
def expensiveConfig : ModelConfig :=
  { model_id := "m-exp", provider := .OPENAI, endpoint := "e"
    capabilities := [.CHAT], cost_per_1k_tokens := 1/100
    latency_threshold_ms := 5000, priority := 90, enabled := true }

/-- Router state used to witness claim C10. -/
def witnessRouterC10 : ModelRouter :=
  { models := [("m-exp", expensiveConfig)]
    health_status :=
      [("m-exp", { model_id := "m-exp", status := .HEALTHY, latency_ms := 100
                   success_rate := 1, last_check := 0, consecutive_failures := 0 })] }

/-- A model parked in MAINTENANCE, used for claim C8. -/
def maintenanceHealth : HealthCheck :=
  { model_id := "m-maint", status := .MAINTENANCE, latency_ms := 120
    success_rate := 1, last_check := 0, consecutive_failures := 0 }

/-- Candidate with a fresh (zero) measured latency, used for claim C6. -/
def zeroLatencyConfig : ModelConfig :=
  { model_id := "gpt-z", provider := .OPENAI, endpoint := "e"
    capabilities := [.CHAT], cost_per_1k_tokens := 1/100
    latency_threshold_ms := 5000, priority := 90, enabled := true }

/-- Health record with `latency_ms = 0` (the value every model has right
after registration), used for claim C6. -/
def zeroLatencyHealth : HealthCheck :=
  { model_id := "gpt-z", status := .HEALTHY, latency_ms := 0
    success_rate := 1, last_check := 0, consecutive_failures := 0 }

/-- The priority-90 candidate of the claim C6 selection scenario. -/
def prio90Config : ModelConfig :=
  { model_id := "prio-90", provider := .OPENAI, endpoint := "e"
    capabilities := [.CHAT], cost_per_1k_tokens := 1/100
    latency_threshold_ms := 5000, priority := 90, enabled := true }

/-- The priority-70 candidate of the claim C6 selection scenario. -/
def prio70Config : ModelConfig :=
  { model_id := "prio-70", provider := .OPENAI, endpoint := "e"
    capabilities := [.CHAT], cost_per_1k_tokens := 1/100
    latency_threshold_ms := 5000, priority := 70, enabled := true }

/-- The identical health state of both claim C6 candidates. -/
def prioHealth (model_id : String) : HealthCheck :=
  { model_id := model_id, status := .HEALTHY, latency_ms := 100
    success_rate := 1, last_check := 0, consecutive_failures := 0 }

/-- Router state for the priority-selection part of claim C6: two HEALTHY
models with priorities 90 and 70 and identical latency, cost, threshold and
success rate. -/
def twoPriorityRouter : ModelRouter :=
  { models := [("prio-90", prio90Config), ("prio-70", prio70Config)]
    health_status :=
      [("prio-90", prioHealth "prio-90"), ("prio-70", prioHealth "prio-70")] }

/-- The `_check_pii` SSN factor (score 90, confidence 0.95) and the
`_check_jailbreak_attempts` factor (score 85, confidence 0.90), used as the
concrete fired-factor list for claim C3. -/
def ssnFactor : RiskFactor :=
  { category := .DATA_LEAKAGE, severity := .CRITICAL, score := 90
    confidence := 95/100, evidence := ["Detected ssn: 1 occurrence(s)"]
    mitigation := some "Remove or redact ssn before processing" }

/-- Companion jailbreak factor for the claim C3 counterexample. -/
def jailbreakFactor : RiskFactor :=
  { category := .JAILBREAK_ATTEMPT, severity := .HIGH, score := 85
    confidence := 90/100, evidence := ["Jailbreak pattern detected"]
    mitigation := some "Block request and log for security review" }

/-- The moderation result of the blocked input "xxx xxxx master race":
hate speech "master race" scores 1.0 (SEVERE), sexual content "xxx" scores
0.6, and the sequential redaction masks only the first two of the three
overlapping occurrences of "xxx" inside "xxxx". -/
def xxxResult : ModerationResult :=
  { is_toxic := true
    toxicity_score := 1
    toxicity_level := .SEVERE
    categories := [.HATE_SPEECH, .SEXUAL_CONTENT]
    flagged_content := [.str "master race", .str "xxx"]
    should_block := true
    redacted_content := some "*** ***x ***********" }

theorem mem_insertDesc {α : Type} (key : α → ℚ) (x a : α) (l : List α) :
    a ∈ insertDesc key x l ↔ a = x ∨ a ∈ l := by
  induction l with
  | nil => simp [insertDesc]
  | cons y ys ih =>
    by_cases h : key y ≤ key x
    · simp [insertDesc, h]
    · simp only [insertDesc, if_neg h, List.mem_cons, ih]
      tauto

theorem mem_sortDesc {α : Type} (key : α → ℚ) (a : α) (l : List α) :
    a ∈ sortDesc key l ↔ a ∈ l := by
  induction l with
  | nil => simp [sortDesc]
  | cons x xs ih => simp [sortDesc, mem_insertDesc, ih]

/-! ## Helper lemmas on the routing pipeline -/

theorem mem_cost_filtered {available : List (String × ModelConfig)}
    {max_cost : Option ℚ} {x : String × ModelConfig}
    (hx : x ∈ cost_filtered available max_cost) : x ∈ available := by
  cases max_cost with
  | none => simpa [cost_filtered] using hx
  | some c =>
    simp only [cost_filtered] at hx
    split at hx
    · exact hx
    · exact (List.mem_filter.mp hx).1

theorem mem_preference_narrowed {available : List (String × ModelConfig)}
    {user_preference : Option String} {x : String × ModelConfig}
    (hx : x ∈ preference_narrowed available user_preference) : x ∈ available := by
  cases user_preference with
  | none => simpa [preference_narrowed] using hx
  | some pref =>
    simp only [preference_narrowed] at hx
    split at hx
    · exact hx
    · split at hx
      · exact hx
      · exact (List.mem_filter.mp hx).1

theorem mem_available_models {r : ModelRouter} {capability : ModelCapability}
    {x : String × ModelConfig} (hx : x ∈ available_models r capability) :
    x ∈ r.models ∧ capability ∈ x.2.capabilities ∧ x.2.enabled = true ∧
      ((health_of r x.1).status = .HEALTHY ∨ (health_of r x.1).status = .DEGRADED) := by
  have h := List.mem_filter.mp hx
  refine ⟨h.1, ?_⟩
  have hp := h.2
  simp only [Bool.and_eq_true, Bool.or_eq_true, beq_iff_eq] at hp
  exact ⟨List.mem_of_elem_eq_true hp.1.1, hp.1.2, hp.2⟩

/-! ## Claim theorems: model routing -/

/-- Claim C2: every model returned by `route_request` (primary or failover)
passed the capability/enabled/health filter — so a model whose status is
`UNAVAILABLE` or `MAINTENANCE` is never returned — and when no model passes
that filter the call fails with the "no available models" error instead of
returning a decision. -/
theorem route_request_only_returns_available (r : ModelRouter)
    (capability : ModelCapability) (pref : Option String) (mc : Option ℚ)
    (low : Bool) :
    (∀ d, route_request r capability pref mc low = .ok d →
      ∀ id ∈ d.selected_model :: d.failover_models,
        ∃ config, (id, config) ∈ r.models ∧ capability ∈ config.capabilities ∧
          config.enabled = true ∧
          ((health_of r id).status = .HEALTHY ∨ (health_of r id).status = .DEGRADED) ∧
          (health_of r id).status ≠ .UNAVAILABLE ∧ (health_of r id).status ≠ .MAINTENANCE)
    ∧ (available_models r capability = [] →
        route_request r capability pref mc low = .error (.noModels capability)) := by
  constructor
  · intro d hroute id hid
    simp only [route_request] at hroute
    split at hroute
    · cases hroute
    · split at hroute
      · cases hroute
      · rename_i score sid scfg shlt stail heq
        cases hroute
        dsimp only at hid
        -- `id` is the id component of some element of the sorted list
        have hid2 : ∃ x : ℚ × String × ModelConfig × HealthCheck,
            x ∈ (score, sid, scfg, shlt) :: stail ∧ id = x.2.1 := by
          simp only [List.mem_cons] at hid
          rcases hid with hid | hid
          · exact ⟨(score, sid, scfg, shlt), List.mem_cons_self _ _, hid⟩
          · simp only [List.mem_map] at hid
            rcases hid with ⟨x, hx, hxid⟩
            exact ⟨x, List.mem_cons_of_mem _ (List.take_subset 3 stail hx), hxid.symm⟩
        rcases hid2 with ⟨x, hxmem, hxid⟩
        rw [← heq, mem_sortDesc] at hxmem
        simp only [List.mem_map] at hxmem
        rcases hxmem with ⟨p, hp, hpx⟩
        have hp' := mem_available_models (mem_cost_filtered (mem_preference_narrowed hp))
        refine ⟨p.2, ?_, hp'.2.1, hp'.2.2.1, ?_, ?_, ?_⟩
        · subst hxid
          rw [← hpx]
          exact hp'.1
        · subst hxid; rw [← hpx]; exact hp'.2.2.2
        · subst hxid; rw [← hpx]
          rcases hp'.2.2.2 with h | h <;> simp [h]
        · subst hxid; rw [← hpx]
          rcases hp'.2.2.2 with h | h <;> simp [h]
  · intro hempty
    simp only [route_request, hempty, List.isEmpty_nil, if_true]

/-- Witness for claim C2: on `witnessRouterC2` the router returns "m-ok",
and the theorem instantiated there certifies the returned model's
eligibility. -/
theorem route_request_only_returns_available_witness :
    ∃ config, ("m-ok", config) ∈ witnessRouterC2.models ∧
      ModelCapability.CHAT ∈ config.capabilities ∧ config.enabled = true ∧
      ((health_of witnessRouterC2 "m-ok").status = .HEALTHY ∨
        (health_of witnessRouterC2 "m-ok").status = .DEGRADED) ∧
      (health_of witnessRouterC2 "m-ok").status ≠ .UNAVAILABLE ∧
      (health_of witnessRouterC2 "m-ok").status ≠ .MAINTENANCE := by
  have h := (route_request_only_returns_available witnessRouterC2 .CHAT none none false).1
  have hsel : ((route_request witnessRouterC2 .CHAT none none false).toOption.map
      fun d => d.selected_model) = some "m-ok" := by decide
  cases hr : route_request witnessRouterC2 .CHAT none none false with
  | error e => rw [hr] at hsel; cases hsel
  | ok d =>
    rw [hr] at hsel
    simp only [Except.toOption, Option.map] at hsel
    injection hsel with hsel
    exact h d hr "m-ok" (by simp [hsel])

/-- Claim C10: when the capability/enabled/health filter leaves candidates
but a positive `max_cost` excludes every one of them, `route_request` fails
with the `IndexError` from `scored_models[0]` on the empty ranking — not
with the "no available models" error, which is checked only before the cost
filter runs. -/
theorem cost_filter_empties_to_index_error (r : ModelRouter)
    (capability : ModelCapability) (pref : Option String) (c : ℚ) (low : Bool)
    (hne : available_models r capability ≠ [])
    (hc : c ≠ 0)
    (hall : ∀ p ∈ available_models r capability, ¬ p.2.cost_per_1k_tokens ≤ c) :
    route_request r capability pref (some c) low = .error .indexError := by
  have hfil : cost_filtered (available_models r capability) (some c) = [] := by
    simp only [cost_filtered, if_neg hc]
    exact List.filter_eq_nil_iff.mpr fun p hp => by simpa using hall p hp
  have hpref : preference_narrowed [] pref = [] := by
    cases pref with
    | none => rfl
    | some s => simp [preference_narrowed]
  have hemp : (available_models r capability).isEmpty = false := by
    simpa [List.isEmpty_iff] using hne
  simp only [route_request, hemp, Bool.false_eq_true, if_false, hfil, hpref,
    List.map_nil, sortDesc]

/-- Witness for claim C10 at `witnessRouterC10` with `max_cost = 0.001`. -/
theorem cost_filter_empties_to_index_error_witness :
    available_models witnessRouterC10 .CHAT ≠ [] ∧ (1/1000 : ℚ) ≠ 0 ∧
      (∀ p ∈ available_models witnessRouterC10 .CHAT,
        ¬ p.2.cost_per_1k_tokens ≤ (1/1000 : ℚ)) ∧
      route_request witnessRouterC10 .CHAT none (some (1/1000)) false =
        .error .indexError := by
  have he : available_models witnessRouterC10 .CHAT = [("m-exp", expensiveConfig)] := rfl
  have hall : ∀ p ∈ available_models witnessRouterC10 .CHAT,
      ¬ p.2.cost_per_1k_tokens ≤ (1/1000 : ℚ) := by
    intro p hp
    rw [he, List.mem_singleton] at hp
    subst hp
    norm_num [expensiveConfig]
  refine ⟨by simp [he], by norm_num, hall, ?_⟩
  exact cost_filter_empties_to_index_error witnessRouterC10 .CHAT none (1/1000) false
    (by simp [he]) (by norm_num) hall

/-- Claim C5: from any starting health state, three consecutive failed
probes leave the status UNAVAILABLE, and a single subsequent successful
probe sets the status to HEALTHY with `consecutive_failures` reset to 0. -/
theorem three_failures_then_one_success (h : HealthCheck)
    (t1 t2 t3 t4 : ℕ) (latency : ℤ) :
    (health_check_model_update (health_check_model_update
        (health_check_model_update h none t1) none t2) none t3).status = .UNAVAILABLE
    ∧ (health_check_model_update (health_check_model_update
        (health_check_model_update (health_check_model_update h none t1)
          none t2) none t3) (some latency) t4).status = .HEALTHY
    ∧ (health_check_model_update (health_check_model_update
        (health_check_model_update (health_check_model_update h none t1)
          none t2) none t3) (some latency) t4).consecutive_failures = 0 := by
  refine ⟨?_, rfl, rfl⟩
  have h3 : h.consecutive_failures + 1 + 1 + 1 ≥ 3 := by omega
  simp [health_check_model_update, h3]

/-- Counterexample to claim C8 as stated: a successful probe on a
MAINTENANCE model does not leave the status at MAINTENANCE — the success
branch of `health_check_model` overwrites it with HEALTHY, with no
exemption for MAINTENANCE anywhere in the function. -/
theorem maintenance_probe_moves_status :
    maintenanceHealth.status = .MAINTENANCE ∧
      (health_check_model_update maintenanceHealth (some 50) 1).status ≠ .MAINTENANCE :=
  ⟨rfl, by decide⟩

/-- Claim C8 (amended): `health_check_model` applies probe transitions to a
MAINTENANCE model exactly as to any other: a successful probe sets HEALTHY
with `consecutive_failures = 0`, a failed probe sets DEGRADED (UNAVAILABLE
from the third consecutive failure); only the explicit
`update_model_status` override can set MAINTENANCE. -/
theorem maintenance_not_exempt_from_probes (h : HealthCheck)
    (_hm : h.status = .MAINTENANCE) (latency : ℤ) (now : ℕ) :
    (health_check_model_update h (some latency) now).status = .HEALTHY
    ∧ (health_check_model_update h (some latency) now).consecutive_failures = 0
    ∧ (health_check_model_update h none now).status =
        (if h.consecutive_failures + 1 ≥ 3 then ModelStatus.UNAVAILABLE
         else ModelStatus.DEGRADED)
    ∧ ∀ s, (update_model_status h s now).status = s :=
  ⟨rfl, rfl, rfl, fun _ => rfl⟩

/-- Witness for claim C8's amended theorem at `maintenanceHealth`. -/
theorem maintenance_not_exempt_from_probes_witness :
    maintenanceHealth.status = .MAINTENANCE ∧
      (health_check_model_update maintenanceHealth (some 50) 1).status = .HEALTHY :=
  ⟨rfl, (maintenance_not_exempt_from_probes maintenanceHealth rfl 50 1).1⟩

/-- Closed form of `_calculate_model_score`, shared by the claim C6 theorem
and counterexample: the sequential accumulation in the source equals one
sum whose latency and cost terms are conditional on `latency_ms > 0` and
`cost > 0`. -/
theorem calculate_model_score_eq (config : ModelConfig) (health : HealthCheck)
    (low : Bool) :
    calculate_model_score config health low =
      30 * ((config.priority : ℚ) / 100)
      + ((if health.status = .HEALTHY then (40 : ℚ)
          else if health.status = .DEGRADED then 20 else 0)
         + health.success_rate * 10)
      + (if health.latency_ms > 0 then
          (if low then (40 : ℚ) else 20) *
            max 0 (1 - (health.latency_ms : ℚ) / (config.latency_threshold_ms : ℚ))
        else 0)
      + (if config.cost_per_1k_tokens > 0 then
          10 * max 0 (1 - config.cost_per_1k_tokens / (2/100))
        else 0) := by
  simp only [calculate_model_score, beq_iff_eq]
  split_ifs <;> ring

/-- Counterexample to claim C6 as stated: at `latency_ms = 0` the code skips
the latency term entirely (`if health.latency_ms > 0`), so the score is 82,
while the claimed unconditional formula gives
`27 + (40 + 10) + 20·max(0, 1 − 0/5000) + 10·max(0, 1 − 0.01/0.02) = 102`. -/
theorem model_score_formula_counterexample :
    calculate_model_score zeroLatencyConfig zeroLatencyHealth false ≠
      30 * ((zeroLatencyConfig.priority : ℚ) / 100)
      + ((if zeroLatencyHealth.status = .HEALTHY then (40 : ℚ)
          else if zeroLatencyHealth.status = .DEGRADED then 20 else 0)
         + zeroLatencyHealth.success_rate * 10)
      + 20 * max 0 (1 - (zeroLatencyHealth.latency_ms : ℚ) /
          (zeroLatencyConfig.latency_threshold_ms : ℚ))
      + 10 * max 0 (1 - zeroLatencyConfig.cost_per_1k_tokens / (2/100)) := by
  rw [calculate_model_score_eq]
  norm_num [zeroLatencyConfig, zeroLatencyHealth, max_def]

/-- Claim C6 (amended): the routing score is
`30·(priority/100) + health_component + latency_component + cost_component`
with `health_component = (40 | 20 | 0) + success_rate·10`, where the
latency term `W·max(0, 1 − latency_ms/threshold)` (`W = 40` when low
latency is requested, else 20) is added only when `latency_ms > 0` and the
cost term `10·max(0, 1 − cost/0.02)` only when `cost > 0`; and of two
HEALTHY models with priorities 90 and 70 and identical latency and cost,
the priority-90 model is selected as primary. -/
theorem model_score_closed_form :
    (∀ (config : ModelConfig) (health : HealthCheck) (low : Bool),
      calculate_model_score config health low =
        30 * ((config.priority : ℚ) / 100)
        + ((if health.status = .HEALTHY then (40 : ℚ)
            else if health.status = .DEGRADED then 20 else 0)
           + health.success_rate * 10)
        + (if health.latency_ms > 0 then
            (if low then (40 : ℚ) else 20) *
              max 0 (1 - (health.latency_ms : ℚ) / (config.latency_threshold_ms : ℚ))
          else 0)
        + (if config.cost_per_1k_tokens > 0 then
            10 * max 0 (1 - config.cost_per_1k_tokens / (2/100))
          else 0))
    ∧ ((route_request twoPriorityRouter .CHAT none none false).toOption.map
        fun d => d.selected_model) = some "prio-90" := by
  refine ⟨calculate_model_score_eq, ?_⟩
  have e1 : available_models twoPriorityRouter .CHAT =
      [("prio-90", prio90Config), ("prio-70", prio70Config)] := rfl
  have eh90 : health_of twoPriorityRouter "prio-90" = prioHealth "prio-90" := rfl
  have eh70 : health_of twoPriorityRouter "prio-70" = prioHealth "prio-70" := rfl
  have hle : calculate_model_score prio70Config (prioHealth "prio-70") false ≤
      calculate_model_score prio90Config (prioHealth "prio-90") false := by
    rw [calculate_model_score_eq, calculate_model_score_eq]
    norm_num [prio90Config, prio70Config, prioHealth, max_def]
  simp only [route_request, e1, cost_filtered, preference_narrowed,
    List.isEmpty_cons, Bool.false_eq_true, if_false, List.map_cons, List.map_nil,
    sortDesc, insertDesc, eh90, eh70, if_pos hle]
  rfl

/-- Shared helper for claim C3: for a non-empty factor list with positive
total confidence, the overall score of `_calculate_overall_risk` is the
truncated confidence-weighted average. -/
theorem overall_score_eq (fs : List RiskFactor) (hne : fs ≠ [])
    (hw : 0 < (fs.map fun rf => rf.confidence).sum) :
    (calculate_overall_risk fs).overall_risk_score =
      pyTrunc (((fs.map fun rf => (rf.score : ℚ) * rf.confidence).sum) /
        ((fs.map fun rf => rf.confidence).sum)) := by
  have hne2 : fs.isEmpty = false := by simpa [List.isEmpty_iff] using hne
  simp only [calculate_overall_risk, hne2, Bool.false_eq_true, if_false, if_pos hw]

/-- Counterexample to claim C3 as stated: for these two factors the
confidence-weighted average is `3240/37 ≈ 87.57`; rounding to the nearest
integer gives 88, but the code computes `int(...)`, which truncates to
87. -/
theorem overall_risk_round_counterexample :
    (calculate_overall_risk [ssnFactor, jailbreakFactor]).overall_risk_score ≠
      round ((([ssnFactor, jailbreakFactor].map fun rf =>
          (rf.score : ℚ) * rf.confidence).sum) /
        (([ssnFactor, jailbreakFactor].map fun rf => rf.confidence).sum)) := by
  rw [overall_score_eq [ssnFactor, jailbreakFactor] (by simp)
    (by norm_num [ssnFactor, jailbreakFactor])]
  have hq : (([ssnFactor, jailbreakFactor].map fun rf =>
      (rf.score : ℚ) * rf.confidence).sum) /
        (([ssnFactor, jailbreakFactor].map fun rf => rf.confidence).sum) = 3240/37 := by
    norm_num [ssnFactor, jailbreakFactor]
  rw [hq, pyTrunc, if_pos (by norm_num : (0:ℚ) ≤ 3240/37), round_eq]
  have h87 : ⌊(3240:ℚ)/37⌋ = 87 := by
    rw [Int.floor_eq_iff]; norm_num
  have h88 : ⌊(3240:ℚ)/37 + 1/2⌋ = 88 := by
    rw [Int.floor_eq_iff]; norm_num
  rw [h87, h88]
  decide

/-- Claim C3 (amended): for a non-empty factor list with positive total
confidence, the overall score is the confidence-weighted average truncated
toward zero (Python `int()`), not rounded to nearest; the empty list yields
score 0 and level MINIMAL; and the level is derived from the score by the
thresholds 85/70/50/30. -/
theorem calculate_overall_risk_spec (fs : List RiskFactor) (hne : fs ≠ [])
    (hw : 0 < (fs.map fun rf => rf.confidence).sum) :
    (calculate_overall_risk fs).overall_risk_score =
      pyTrunc (((fs.map fun rf => (rf.score : ℚ) * rf.confidence).sum) /
        ((fs.map fun rf => rf.confidence).sum))
    ∧ (calculate_overall_risk []).overall_risk_score = 0
    ∧ (calculate_overall_risk []).risk_level = .MINIMAL
    ∧ (calculate_overall_risk fs).risk_level =
        (if (calculate_overall_risk fs).overall_risk_score ≥ 85 then RiskLevel.CRITICAL
         else if (calculate_overall_risk fs).overall_risk_score ≥ 70 then .HIGH
         else if (calculate_overall_risk fs).overall_risk_score ≥ 50 then .MEDIUM
         else if (calculate_overall_risk fs).overall_risk_score ≥ 30 then .LOW
         else .MINIMAL) := by
  have hne2 : fs.isEmpty = false := by simpa [List.isEmpty_iff] using hne
  refine ⟨overall_score_eq fs hne hw, rfl, rfl, ?_⟩
  simp only [calculate_overall_risk, hne2, Bool.false_eq_true, if_false, if_pos hw]

/-- Witness for claim C3's amended theorem at the singleton SSN factor:
`int(90·0.95/0.95) = 90`, level CRITICAL. -/
theorem calculate_overall_risk_spec_witness :
    ([ssnFactor] ≠ []) ∧ (0 < ([ssnFactor].map fun rf => rf.confidence).sum) ∧
      (calculate_overall_risk [ssnFactor]).overall_risk_score =
        pyTrunc ((([ssnFactor].map fun rf => (rf.score : ℚ) * rf.confidence).sum) /
          (([ssnFactor].map fun rf => rf.confidence).sum)) :=
  ⟨by simp, by norm_num [ssnFactor],
    (calculate_overall_risk_spec [ssnFactor] (by simp) (by norm_num [ssnFactor])).1⟩

theorem init_le_foldl_max (vs : List ℚ) (v : ℚ) : v ≤ vs.foldl max v := by
  induction vs generalizing v with
  | nil => exact le_refl v
  | cons w ws ih => exact le_trans (le_max_left v w) (ih (max v w))

theorem mem_le_foldl_max (vs : List ℚ) (v x : ℚ) (hx : x ∈ v :: vs) :
    x ≤ vs.foldl max v := by
  induction vs generalizing v with
  | nil =>
    rw [List.mem_singleton] at hx
    exact hx ▸ le_refl x
  | cons w ws ih =>
    simp only [List.foldl_cons]
    rcases List.mem_cons.mp hx with h | h
    · subst h
      exact le_trans (le_max_left x w) (init_le_foldl_max ws (max x w))
    · rcases List.mem_cons.mp h with h2 | h2
      · subst h2
        exact le_trans (le_max_right v x) (init_le_foldl_max ws (max v x))
      · exact ih (max v w) (List.mem_cons_of_mem _ h2)

theorem foldl_max_mem (vs : List ℚ) (v : ℚ) : vs.foldl max v ∈ v :: vs := by
  induction vs generalizing v with
  | nil => simp
  | cons w ws ih =>
    simp only [List.foldl_cons]
    rcases List.mem_cons.mp (ih (max v w)) with h | h
    · rcases max_choice v w with hm | hm
      · rw [h, hm]
        exact List.mem_cons_self _ _
      · rw [h, hm]
        exact List.mem_cons_of_mem _ (List.mem_cons_self _ _)
    · exact List.mem_cons_of_mem _ (List.mem_cons_of_mem _ h)

/-- Shared inversion for `moderate_content`: a returned result carries
exactly the values of the named locals the function computes. -/
theorem moderate_content_inv (toxicity_threshold : ℚ) (content : String)
    (strict_mode : Bool) (m : ModerationResult)
    (hm : moderate_content toxicity_threshold content strict_mode = some m) :
    m.toxicity_score = moderation_overall content
    ∧ m.toxicity_level = moderation_level content
    ∧ m.is_toxic = moderation_is_toxic toxicity_threshold content strict_mode
    ∧ m.should_block = moderation_should_block toxicity_threshold content strict_mode
    ∧ m.categories = (moderation_entries content).map (fun e => e.1)
    ∧ m.flagged_content = moderation_flags content
    ∧ (m.should_block = true →
        redact_content content m.flagged_content = m.redacted_content ∧
          m.redacted_content ≠ none)
    ∧ (m.should_block = false → m.redacted_content = none) := by
  simp only [moderate_content] at hm
  rw [Option.map_eq_some'] at hm
  obtain ⟨rc, hrc, hm⟩ := hm
  have h1 : m.toxicity_score = moderation_overall content := by rw [← hm]
  have h2 : m.toxicity_level = moderation_level content := by rw [← hm]
  have h3 : m.is_toxic = moderation_is_toxic toxicity_threshold content strict_mode := by
    rw [← hm]
  have h4 : m.should_block =
      moderation_should_block toxicity_threshold content strict_mode := by
    rw [← hm]
  have h5 : m.categories = (moderation_entries content).map (fun e => e.1) := by
    rw [← hm]
  have h6 : m.flagged_content = moderation_flags content := by rw [← hm]
  have h7 : m.redacted_content = rc := by rw [← hm]
  refine ⟨h1, h2, h3, h4, h5, h6, ?_, ?_⟩
  · intro hsb
    rw [h4] at hsb
    rw [moderation_redacted, if_pos hsb] at hrc
    cases hred : redact_content content (moderation_flags content) with
    | none =>
      simp only [hred] at hrc
      exact (Option.noConfusion hrc)
    | some r =>
      simp only [hred] at hrc
      injection hrc with hrc
      rw [h6, h7, ← hrc, hred]
      exact ⟨rfl, by simp⟩
  · intro hsb
    rw [h4] at hsb
    have hcond :
        ¬ (moderation_should_block toxicity_threshold content strict_mode = true) := by
      rw [hsb]; exact Bool.false_ne_true
    rw [moderation_redacted, if_neg hcond] at hrc
    exact h7.trans (Option.some.inj hrc).symm

/-- Claim C4: for every input on which `moderate_content` returns (it can
only raise inside redaction), the toxicity score is the maximum of the
fired per-category scores and 0.0 when none fires; the level follows the
0.9/0.7/0.5/0.3 thresholds; `is_toxic` holds iff the score reaches the
configured threshold (0.5 in strict mode, the constructor threshold — 0.7
by default — otherwise); and `should_block` holds iff `is_toxic` and the
level is SEVERE or HIGH. -/
theorem moderate_content_spec (toxicity_threshold : ℚ) (content : String)
    (strict_mode : Bool) (m : ModerationResult)
    (hm : moderate_content toxicity_threshold content strict_mode = some m) :
    (∀ e ∈ moderation_entries content, e.2.1 ≤ m.toxicity_score)
    ∧ (m.toxicity_score ∈ (moderation_entries content).map (fun e => e.2.1) ∨
        (moderation_entries content = [] ∧ m.toxicity_score = 0))
    ∧ m.toxicity_level =
        (if m.toxicity_score ≥ 9/10 then ToxicityLevel.SEVERE
         else if m.toxicity_score ≥ 7/10 then .HIGH
         else if m.toxicity_score ≥ 5/10 then .MODERATE
         else if m.toxicity_score ≥ 3/10 then .LOW
         else .CLEAN)
    ∧ (m.is_toxic = true ↔
        m.toxicity_score ≥ (if strict_mode then 1/2 else toxicity_threshold))
    ∧ (m.should_block = true ↔
        (m.is_toxic = true ∧
          (m.toxicity_level = .SEVERE ∨ m.toxicity_level = .HIGH))) := by
  obtain ⟨hsc, hlv, htx, hsb, -, -, -, -⟩ :=
    moderate_content_inv toxicity_threshold content strict_mode m hm
  have hsc2 : m.toxicity_score =
      overall_toxicity ((moderation_entries content).map fun e => e.2.1) := by
    rw [hsc, moderation_overall]
  refine ⟨?_, ?_, ?_, ?_, ?_⟩
  · intro e he
    have hmem : e.2.1 ∈ (moderation_entries content).map (fun e => e.2.1) :=
      List.mem_map_of_mem _ he
    rw [hsc2]
    cases hmap : (moderation_entries content).map (fun e => e.2.1) with
    | nil => rw [hmap] at hmem; cases hmem
    | cons v vs =>
      rw [hmap] at hmem
      simp only [overall_toxicity]
      exact mem_le_foldl_max vs v _ hmem
  · cases hmap : (moderation_entries content).map (fun e => e.2.1) with
    | nil =>
      refine Or.inr ⟨List.map_eq_nil_iff.mp hmap, ?_⟩
      rw [hsc2, hmap]
      rfl
    | cons v vs =>
      refine Or.inl ?_
      rw [hsc2, hmap]
      simp only [overall_toxicity]
      exact foldl_max_mem vs v
  · rw [hlv, hsc, moderation_level, moderation_overall, toxicity_level_of]
  · rw [htx, hsc, moderation_is_toxic]
    exact decide_eq_true_iff
  · rw [hsb, moderation_should_block, htx, hlv]
    simp [Bool.and_eq_true, Bool.or_eq_true, beq_iff_eq]

/-- Shared evaluation of `moderate_content` on the claim C4/C7 input. -/
theorem xxx_moderation_eq :
    moderate_content (7/10) "xxx xxxx master race" false = some xxxResult := by
  have hprof : check_profanity "xxx xxxx master race" = (0, []) := rfl
  have hhate : check_hate_speech "xxx xxxx master race" =
      (1, [.str "master race"]) := rfl
  have hsex : check_sexual_content "xxx xxxx master race" =
      (max 0 (6/10), [.str "xxx"]) := rfl
  have hviol : check_violence "xxx xxxx master race" = (0, []) := rfl
  have hhar : check_harassment "xxx xxxx master race" = (0, []) := rfl
  have hthr : check_threats "xxx xxxx master race" = (0, []) := rfl
  have hid : check_identity_attacks "xxx xxxx master race" = (0, []) := rfl
  have hents : moderation_entries "xxx xxxx master race" =
      [(.HATE_SPEECH, 1, [.str "master race"]),
       (.SEXUAL_CONTENT, 6/10, [.str "xxx"])] := by
    rw [moderation_entries, hprof, hhate, hsex, hviol, hhar, hthr, hid]
    norm_num [max_def]
  have hov : moderation_overall "xxx xxxx master race" = 1 := by
    rw [moderation_overall, hents]
    simp only [List.map_cons, List.map_nil, overall_toxicity, List.foldl_cons,
      List.foldl_nil]
    norm_num [max_def]
  have hlv : moderation_level "xxx xxxx master race" = .SEVERE := by
    rw [moderation_level, hov, toxicity_level_of,
      if_pos (by norm_num : (1:ℚ) ≥ 9/10)]
  have htox : moderation_is_toxic (7/10) "xxx xxxx master race" false = true := by
    rw [moderation_is_toxic, hov]
    simp only [Bool.false_eq_true, if_false]
    exact decide_eq_true (by norm_num)
  have hsb : moderation_should_block (7/10) "xxx xxxx master race" false = true := by
    rw [moderation_should_block, htox, hlv]
    rfl
  have hflags : moderation_flags "xxx xxxx master race" =
      [.str "master race", .str "xxx"] := by
    rw [moderation_flags, hents]
    rfl
  have hred : redact_content "xxx xxxx master race"
      [.str "master race", .str "xxx"] = some "*** ***x ***********" := rfl
  have hredd : moderation_redacted (7/10) "xxx xxxx master race" false =
      some (some "*** ***x ***********") := by
    rw [moderation_redacted, if_pos hsb, hflags, hred]
  rw [moderate_content, hredd]
  rw [htox, hov, hlv, hsb, hents, hflags]
  simp [xxxResult]

/-- Counterexample to claim C7 as stated: on this blocked input the
sequential replacement of `_redact_content` leaves the final character of
the self-overlapping "xxxx" unmasked ("*** ***x …"), while masking the
resolved (union of) overlapping case-insensitive spans of the flagged
substrings, as the claim requires, yields "*** **** …". -/
theorem redaction_overlap_counterexample :
    (moderate_content (7/10) "xxx xxxx master race" false).map
        (fun m => (m.should_block, m.redacted_content)) =
      some (true, some "*** ***x ***********")
    ∧ redactResolvedSpans "xxx xxxx master race" ["master race", "xxx"] =
        "*** **** ***********"
    ∧ ("*** ***x ***********" : String) ≠ "*** **** ***********" := by
  refine ⟨?_, rfl, by decide⟩
  rw [xxx_moderation_eq]
  rfl

/-- Claim C7 (amended): when `moderate_content` blocks and returns, the
redacted content is obtained by sequentially replacing, for each flagged
string item in flag order, its non-overlapping case-insensitive occurrences
left to right with equal-length asterisk runs (`redact_content`);
overlapping spans are not resolved first, so an occurrence overlapping an
earlier-replaced span can stay partially unmasked, and a tuple flagged item
makes the call raise instead of returning.  When not blocking, no redacted
content is produced. -/
theorem moderate_content_redaction (toxicity_threshold : ℚ) (content : String)
    (strict_mode : Bool) (m : ModerationResult)
    (hm : moderate_content toxicity_threshold content strict_mode = some m) :
    (m.should_block = true →
      m.redacted_content = redact_content content m.flagged_content ∧
        m.redacted_content ≠ none)
    ∧ (m.should_block = false → m.redacted_content = none) := by
  obtain ⟨-, -, -, -, -, -, hT, hF⟩ :=
    moderate_content_inv toxicity_threshold content strict_mode m hm
  exact ⟨fun h => ⟨(hT h).1.symm, (hT h).2⟩, hF⟩

/-- Witness for claim C7's amended theorem at the blocked input. -/
theorem moderate_content_redaction_witness :
    xxxResult.should_block = true ∧
      xxxResult.redacted_content =
        redact_content "xxx xxxx master race" xxxResult.flagged_content ∧
      xxxResult.redacted_content ≠ none :=
  ⟨rfl,
    ((moderate_content_redaction (7/10) "xxx xxxx master race" false
      xxxResult xxx_moderation_eq).1 rfl).1,
    ((moderate_content_redaction (7/10) "xxx xxxx master race" false
      xxxResult xxx_moderation_eq).1 rfl).2⟩

/-- Witness for claim C4 at the concrete input "xxx xxxx master race". -/
theorem moderate_content_spec_witness :
    moderate_content (7/10) "xxx xxxx master race" false = some xxxResult ∧
      (xxxResult.is_toxic = true ↔
        xxxResult.toxicity_score ≥ (if false then 1/2 else (7/10 : ℚ))) ∧
      (xxxResult.should_block = true ↔
        (xxxResult.is_toxic = true ∧
          (xxxResult.toxicity_level = .SEVERE ∨ xxxResult.toxicity_level = .HIGH))) :=
  ⟨xxx_moderation_eq,
    (moderate_content_spec (7/10) "xxx xxxx master race" false xxxResult
      xxx_moderation_eq).2.2.2.1,
    (moderate_content_spec (7/10) "xxx xxxx master race" false xxxResult
      xxx_moderation_eq).2.2.2.2⟩

/-- Shared helper: `_calculate_overall_risk` returns the factor list
unchanged. -/
theorem risk_factors_eq (fs : List RiskFactor) :
    (calculate_overall_risk fs).risk_factors = fs := by
  cases fs with
  | nil => rfl
  | cons f fs => rfl

/-- Shared helper: for a non-empty factor list the derived level follows the
85/70/50/30 thresholds on the overall score. -/
theorem risk_level_eq (fs : List RiskFactor) (hne : fs ≠ []) :
    (calculate_overall_risk fs).risk_level =
      (if (calculate_overall_risk fs).overall_risk_score ≥ 85 then RiskLevel.CRITICAL
       else if (calculate_overall_risk fs).overall_risk_score ≥ 70 then .HIGH
       else if (calculate_overall_risk fs).overall_risk_score ≥ 50 then .MEDIUM
       else if (calculate_overall_risk fs).overall_risk_score ≥ 30 then .LOW
       else .MINIMAL) := by
  have hne2 : fs.isEmpty = false := by simpa [List.isEmpty_iff] using hne
  simp only [calculate_overall_risk, hne2, Bool.false_eq_true, if_false]

/-- Shared helper: for a non-empty factor list, blocking means the level is
CRITICAL or HIGH. -/
theorem risk_should_block_eq (fs : List RiskFactor) (hne : fs ≠ []) :
    (calculate_overall_risk fs).should_block =
      ((calculate_overall_risk fs).risk_level == RiskLevel.CRITICAL ||
       (calculate_overall_risk fs).risk_level == RiskLevel.HIGH) := by
  have hne2 : fs.isEmpty = false := by simpa [List.isEmpty_iff] using hne
  simp only [calculate_overall_risk, hne2, Bool.false_eq_true, if_false]

/-- Claim C9: assessing "My SSN is 123-45-6789" produces a DATA_LEAKAGE
factor with severity CRITICAL, score ≥ 90 (here 90) and confidence 0.95,
and the assessment blocks with overall score ≥ 85 (here 90, CRITICAL). -/
theorem ssn_prompt_assessment :
    (∃ rf ∈ (assess_prompt "My SSN is 123-45-6789").risk_factors,
      rf.category = .DATA_LEAKAGE ∧ rf.severity = RiskLevel.CRITICAL ∧
      rf.score ≥ 90 ∧ rf.confidence = 95/100)
    ∧ (assess_prompt "My SSN is 123-45-6789").should_block = true
    ∧ (assess_prompt "My SSN is 123-45-6789").overall_risk_score ≥ 85 := by
  have hfac : check_pii "My SSN is 123-45-6789" ++
      check_jailbreak_attempts "My SSN is 123-45-6789" ++
      check_prompt_injection "My SSN is 123-45-6789" ++
      check_harmful_content "My SSN is 123-45-6789" ++
      check_confidential_content "My SSN is 123-45-6789" = [ssnFactor] := by rfl
  have hassess : assess_prompt "My SSN is 123-45-6789" =
      calculate_overall_risk [ssnFactor] := by rw [assess_prompt, hfac]
  have hscore : (calculate_overall_risk [ssnFactor]).overall_risk_score = 90 := by
    rw [overall_score_eq [ssnFactor] (by simp) (by norm_num [ssnFactor])]
    have harg : (([ssnFactor].map fun rf => (rf.score : ℚ) * rf.confidence).sum) /
        (([ssnFactor].map fun rf => rf.confidence).sum) = 90 := by
      norm_num [ssnFactor]
    rw [harg, pyTrunc, if_pos (by norm_num : (0:ℚ) ≤ 90)]
    rw [Int.floor_eq_iff]; norm_num
  have hlevel : (calculate_overall_risk [ssnFactor]).risk_level = RiskLevel.CRITICAL := by
    rw [risk_level_eq [ssnFactor] (by simp), hscore]
    norm_num
  have hblock : (calculate_overall_risk [ssnFactor]).should_block = true := by
    rw [risk_should_block_eq [ssnFactor] (by simp), hlevel]
    rfl
  refine ⟨⟨ssnFactor, ?_, rfl, rfl, by norm_num [ssnFactor], rfl⟩, ?_, ?_⟩
  · rw [hassess, risk_factors_eq]
    exact List.mem_singleton.mpr rfl
  · rw [hassess]
    exact hblock
  · rw [hassess, hscore]
    norm_num

/-- Claim C1: for every combination of sub-results the final verdict is
BLOCK iff `risk.should_block ∨ moderation.should_block ∨ some threat is
CRITICAL/HIGH`; REVIEW iff it is not BLOCK and `risk.should_review ∨
(moderation.is_toxic ∧ ¬moderation.should_block)`; otherwise ALLOW; and
`allowed` is true exactly when the verdict is not BLOCK. -/
theorem analyze_prompt_decision_spec (risk : RiskAssessmentResult)
    (moderation : ModerationResult) (threats : List ThreatIntelligence) :
    ((analyze_prompt_decision risk moderation threats).decision = "BLOCK" ↔
      (risk.should_block = true ∨ moderation.should_block = true ∨
        ∃ t ∈ threats, t.threat_level = .CRITICAL ∨ t.threat_level = .HIGH))
    ∧ ((analyze_prompt_decision risk moderation threats).decision = "REVIEW" ↔
      (¬(risk.should_block = true ∨ moderation.should_block = true ∨
          ∃ t ∈ threats, t.threat_level = .CRITICAL ∨ t.threat_level = .HIGH) ∧
        (risk.should_review = true ∨
          (moderation.is_toxic = true ∧ moderation.should_block = false))))
    ∧ ((analyze_prompt_decision risk moderation threats).decision = "ALLOW" ↔
      (¬(risk.should_block = true ∨ moderation.should_block = true ∨
          ∃ t ∈ threats, t.threat_level = .CRITICAL ∨ t.threat_level = .HIGH) ∧
        ¬(risk.should_review = true ∨
          (moderation.is_toxic = true ∧ moderation.should_block = false))))
    ∧ ((analyze_prompt_decision risk moderation threats).allowed = true ↔
      (analyze_prompt_decision risk moderation threats).decision ≠ "BLOCK") := by
  have hdec : (analyze_prompt_decision risk moderation threats).decision =
      (if (risk.should_block || moderation.should_block || threats.any fun t =>
            t.threat_level == ThreatLevel.CRITICAL || t.threat_level == ThreatLevel.HIGH)
        then "BLOCK"
       else if (risk.should_review || (moderation.is_toxic && !moderation.should_block))
        then "REVIEW" else "ALLOW") := rfl
  have hallow : (analyze_prompt_decision risk moderation threats).allowed =
      !(risk.should_block || moderation.should_block || threats.any fun t =>
          t.threat_level == ThreatLevel.CRITICAL || t.threat_level == ThreatLevel.HIGH) := rfl
  have hB : (risk.should_block || moderation.should_block || threats.any fun t =>
      t.threat_level == ThreatLevel.CRITICAL || t.threat_level == ThreatLevel.HIGH) = true ↔
      (risk.should_block = true ∨ moderation.should_block = true ∨
        ∃ t ∈ threats, t.threat_level = .CRITICAL ∨ t.threat_level = .HIGH) := by
    simp [List.any_eq_true, beq_iff_eq, or_assoc]
  have hR : (risk.should_review || (moderation.is_toxic && !moderation.should_block)) = true ↔
      (risk.should_review = true ∨
        (moderation.is_toxic = true ∧ moderation.should_block = false)) := by
    simp [Bool.and_eq_true, Bool.not_eq_true']
  by_cases hbb : (risk.should_block || moderation.should_block || threats.any fun t =>
      t.threat_level == ThreatLevel.CRITICAL || t.threat_level == ThreatLevel.HIGH) = true
  · have hP := hB.mp hbb
    rw [hdec, hallow, if_pos hbb, hbb]
    exact ⟨iff_of_true rfl hP,
      iff_of_false (by decide) fun hc => hc.1 hP,
      iff_of_false (by decide) fun hc => hc.1 hP,
      iff_of_false (by decide) fun hne => hne rfl⟩
  · have hbf : (risk.should_block || moderation.should_block || threats.any fun t =>
        t.threat_level == ThreatLevel.CRITICAL || t.threat_level == ThreatLevel.HIGH) = false := by
      simpa using hbb
    have hnP := fun hp => hbb (hB.mpr hp)
    rw [hdec, hallow, if_neg hbb, hbf]
    by_cases hrr : (risk.should_review ||
        (moderation.is_toxic && !moderation.should_block)) = true
    · have hRR := hR.mp hrr
      rw [if_pos hrr]
      exact ⟨iff_of_false (by decide) hnP,
        iff_of_true rfl ⟨hnP, hRR⟩,
        iff_of_false (by decide) fun hc => hc.2 hRR,
        iff_of_true rfl (by decide)⟩
    · have hnR := fun hr2 => hrr (hR.mpr hr2)
      rw [if_neg hrr]
      exact ⟨iff_of_false (by decide) hnP,
        iff_of_false (by decide) fun hc => hnR hc.2,
        iff_of_true rfl ⟨hnP, hnR⟩,
        iff_of_true rfl (by decide)⟩

end AIGov
